import Mathlib

/-!
Shallow embedding of the reconciliation logic of `src/charm.py` from the
repository canonical/charm-k8s-wordpress (class `WordpressCharm`).

Modelling conventions:
  * The observable state of the charm, its configuration and the workload
    container is collected in the structure `CharmState`.
  * Calls into the outside world (pebble service control, wp-cli commands,
    file pushes, apache helpers, MySQL connectivity probes) are recorded as
    values of the inductive `Eff`; every function of the charm is embedded as
    a function from `CharmState` to a result carrying the new state, the list
    of issued effects and an optional raised exception.
  * The success or failure of an external command is an environment choice,
    modelled by the oracle field `execOk : Eff → Bool` of the state; the
    outcome of the `mysql.connector.connect` probe on attempt `i` is the
    oracle `dbCheck i`; the message of a failed probe is `dbErrMsg`.
  * Python truthiness of optional strings (`None` and `""` are falsy) is
    `pyTruthy`; Python string interpolation of `None` is `pyShow`.
  * The wp-cli list commands (`wp theme list`, `wp plugin list`) are the way
    the charm observes which addons are installed; the embedding treats their
    output as the state fields `installedThemes` / `installedPlugins`
    (name/status pairs, as in the JSON the source parses).
  * yaml parsing of the `wp_plugin_openstack-objectstorage_config` option is
    external library behaviour; the option is carried in parsed form:
    `none` stands for an empty/whitespace option string, `some kvs` for the
    parsed mapping with scalar values rendered as strings.
-/

namespace WordpressCharm

/-- Unit status values from `ops.model` used by the charm. -/
inductive UnitStatus where
  | active : UnitStatus
  | waiting (msg : String) : UnitStatus
  | blocked (msg : String) : UnitStatus
  | maintenance (msg : String) : UnitStatus
deriving DecidableEq

/-- Modelled from the spec: the repository's `exceptions` module is not under
src/ (only `import exceptions` and the raise sites are).  Per the spec's
failure mode description ("raise and set status") it provides the
`WordPressStatusException` hierarchy whose `status` attribute is assigned to
the unit: `WordPressWaitingStatusException` carries a WaitingStatus and
`WordPressBlockedStatusException` a BlockedStatus; `WordPressInstallError`
raised by `_wp_install` is modelled as a blocked-status member of the
hierarchy.  `fatal` stands for ordinary Python exceptions that are not
`WordPressStatusException` (ValueError, RuntimeError, FileNotFoundError,
ops model errors): `_reconciliation` does not catch those. -/
inductive WPErr where
  | waiting (msg : String) : WPErr
  | blocked (msg : String) : WPErr
  | installError (msg : String) : WPErr
  | fatal (msg : String) : WPErr
deriving DecidableEq

def WPErr.isStatusExc : WPErr → Bool
  | .fatal _ => false
  | _ => true

def WPErr.toStatus : WPErr → UnitStatus
  | .waiting m => .waiting m
  | .blocked m => .blocked m
  | .installError m => .blocked m
  | .fatal m => .blocked m

/-- External effects issued by the charm.  Each constructor corresponds to one
call site in the source:
  * `stopService` / `startService`: `container.stop/start("wordpress")`; the
    `startService` payload records whether wp-config.php existed in the
    container at the moment the start command was issued.
  * `pushWpConfig`: `_push_wp_config` pushing the given content.
  * `wpInstallCmd`: the `wp core install ...` command of `_wp_install`.
  * `removeWpConfigFile`: `remove_path` in `_remove_wp_config`; the payload
    records whether the server was running when the file was removed.
  * `addonInstall ty n`: `wp theme install n --force` resp.
    `wp plugin install n` from `_wp_addon_install`.
  * `addonUninstall ty n`: `wp theme delete n --force` resp.
    `wp plugin uninstall n --deactivate` from `_wp_addon_uninstall`.
  * `pluginActivate` / `pluginDeactivate`: `wp plugin activate/deactivate`.
  * `optionUpdate o v fmt`: `wp option update o v --format=fmt`.
  * `optionDelete o`: `wp option delete o`.
  * `dbConnCheck`: one `mysql.connector.connect` probe of
    `_test_database_connectivity`.
  * `apachePush` / `apacheRemove`: push/remove of the conf-available file in
    `_apache_enable_config` / `_apache_disable_config`.
  * `runA2enconf` / `runA2disconf`: the `a2enconf` / `a2disconf` commands. -/
inductive Eff where
  | stopService : Eff
  | startService (wpConfigPresent : Bool) : Eff
  | pushWpConfig (content : String) : Eff
  | wpInstallCmd : Eff
  | removeWpConfigFile (serverRunning : Bool) : Eff
  | addonInstall (addonType : String) (name : String) : Eff
  | addonUninstall (addonType : String) (name : String) : Eff
  | pluginActivate (plugin : String) : Eff
  | pluginDeactivate (plugin : String) : Eff
  | optionUpdate (option : String) (value : String) (format : String) : Eff
  | optionDelete (option : String) : Eff
  | dbConnCheck : Eff
  | apachePush (confName : String) (conf : String) : Eff
  | apacheRemove (confName : String) : Eff
  | runA2enconf (confName : String) : Eff
  | runA2disconf (confName : String) : Eff
deriving DecidableEq

/-- Observable state: charm config options, relation data, stored state and
the state of the workload container, plus the environment oracles. -/
structure CharmState where
  /-- `container.can_connect()` -/
  canConnect : Bool
  /-- `self.unit.is_leader()` -/
  isLeader : Bool
  /-- config option `db_host` -/
  cfgDbHost : String
  /-- config option `db_name` -/
  cfgDbName : String
  /-- config option `db_user` -/
  cfgDbUser : String
  /-- config option `db_password` -/
  cfgDbPassword : String
  /-- config option `themes` -/
  cfgThemes : String
  /-- config option `plugins` -/
  cfgPlugins : String
  /-- config option `wp_plugin_akismet_key` -/
  cfgAkismetKey : String
  /-- config option `wp_plugin_openid_team_map` -/
  cfgOpenidTeamMap : String
  /-- config option `wp_plugin_openstack-objectstorage_config`, in parsed
  form: `none` for an empty option, `some kvs` for the yaml mapping -/
  cfgSwift : Option (List (String × String))
  /-- stored state `relation_db_host` -/
  relDbHost : Option String
  /-- stored state `relation_db_name` -/
  relDbName : Option String
  /-- stored state `relation_db_user` -/
  relDbUser : Option String
  /-- stored state `relation_db_password` -/
  relDbPassword : Option String
  /-- the `wordpress-replica` peer relation application data bag; `none` when
  the relation is not yet established (`_ReplicaRelationNotReady`) -/
  replicaData : Option (List (String × String))
  /-- whether the `wordpress` pebble layer/service exists in the plan -/
  serviceExists : Bool
  /-- whether the `wordpress` service is running -/
  serviceRunning : Bool
  /-- content of `/var/www/html/wp-config.php`, `none` when absent -/
  currentWpConfig : Option String
  /-- whether `wp core is-installed` reports success -/
  wpInstalled : Bool
  /-- `wp theme list` output: name/status pairs -/
  installedThemes : List (String × String)
  /-- `wp plugin list` output: name/status pairs -/
  installedPlugins : List (String × String)
  /-- filenames in `/etc/apache2/conf-enabled` -/
  apacheEnabledConfs : List String
  /-- name/content of files in `/etc/apache2/conf-available` -/
  apacheConfAvailable : List (String × String)
  /-- environment oracle: outcome of the `i`-th database connectivity probe -/
  dbCheck : Nat → Bool
  /-- the `MySQL error {errno}` message of a failed connectivity probe -/
  dbErrMsg : String
  /-- environment oracle: whether a given external command succeeds -/
  execOk : Eff → Bool

/-- Result of running an embedded charm method: final state, issued effects
in order, and the exception raised (`none` when the method returned). -/
structure Res where
  state : CharmState
  effs : List Eff
  err : Option WPErr

/-- Sequencing: run `f` on the result state unless an exception was raised. -/
def Res.seq (r : Res) (f : CharmState → Res) : Res :=
  match r.err with
  | some _ => r
  | none =>
    let r2 := f r.state
    ⟨r2.state, r.effs ++ r2.effs, r2.err⟩

/-- Python whitespace (the characters `str.strip()` removes). -/
def pyIsSpace (c : Char) : Bool :=
  (c == ' ') || (c == '\t') || (c == '\n') || (c == '\r') || (c == '\x0b') || (c == '\x0c')

/-- Python `str.strip()`. -/
def pyStrip (s : String) : String :=
  String.mk (((s.data.dropWhile pyIsSpace).reverse.dropWhile pyIsSpace).reverse)

/-- Splitting a character list at every occurrence of a separator. -/
def splitCharAux (c : Char) : List Char -> List (List Char)
  | [] => [[]]
  | x :: xs =>
    match splitCharAux c xs with
    | [] => [[]]
    | g :: gs => if x == c then [] :: g :: gs else (x :: g) :: gs

/-- Python `s.split(c)` for a one-character separator. -/
def pySplitChar (s : String) (c : Char) : List String :=
  (splitCharAux c s.data).map String.mk

/-- Python `str.upper()` (the identifiers involved are all ASCII). -/
def pyUpper (s : String) : String :=
  String.mk (s.data.map Char.toUpper)

/-- Python truthiness of an optional string: `None` and `""` are falsy. -/
def pyTruthy : Option String → Bool
  | none => false
  | some s => !(s == "")

/-- Python string interpolation of an optional string: `None` prints as
`"None"`. -/
def pyShow : Option String → String
  | none => "None"
  | some s => s

/-- `_WORDPRESS_DEFAULT_THEMES` of `WordpressCharm`. -/
def _WORDPRESS_DEFAULT_THEMES : List String := [
  "fruitful",
  "launchpad",
  "light-wordpress-theme",
  "mscom",
  "thematic",
  "twentyeleven",
  "twentynineteen",
  "twentytwenty",
  "twentytwentyone",
  "ubuntu-cloud-website",
  "ubuntu-community-wordpress-theme/ubuntu-community",
  "ubuntu-community/ubuntu-community",
  "ubuntu-fi",
  "ubuntu-light",
  "ubuntustudio-wp/ubuntustudio-wp",
  "xubuntu-website/xubuntu-eighteen",
  "xubuntu-website/xubuntu-fifteen",
  "xubuntu-website/xubuntu-fourteen",
  "xubuntu-website/xubuntu-thirteen"]

/-- `_WORDPRESS_DEFAULT_PLUGINS` of `WordpressCharm`. -/
def _WORDPRESS_DEFAULT_PLUGINS : List String := [
  "404page",
  "akismet",
  "all-in-one-event-calendar",
  "powerpress",
  "coschedule-by-todaymade",
  "elementor",
  "essential-addons-for-elementor-lite",
  "favicon-by-realfavicongenerator",
  "feedwordpress",
  "fruitful-shortcodes",
  "genesis-columns-advanced",
  "hello",
  "line-break-shortcode",
  "wp-mastodon-share",
  "no-category-base-wpml",
  "openid",
  "wordpress-launchpad-integration",
  "wordpress-teams-integration",
  "openstack-objectstorage-k8s",
  "post-grid",
  "redirection",
  "relative-image-urls",
  "rel-publisher",
  "safe-svg",
  "show-current-template",
  "simple-301-redirects",
  "simple-custom-css",
  "so-widgets-bundle",
  "social-media-buttons-toolbar",
  "svg-support",
  "syntaxhighlighter",
  "wordpress-importer",
  "wp-markdown",
  "wp-polls",
  "wp-font-awesome",
  "wp-lightbox-2",
  "wp-statistics",
  "xubuntu-team-members",
  "wordpress-seo"]

/-- `_wordpress_secret_key_fields` of `WordpressCharm`. -/
def _wordpress_secret_key_fields : List String := [
  "auth_key",
  "secure_auth_key",
  "logged_in_key",
  "nonce_key",
  "auth_salt",
  "secure_auth_salt",
  "logged_in_salt",
  "nonce_salt"]

/-- `_replica_consensus_reached`: all secret key fields are present and
truthy in the peer relation application data bag; `False` when the peer
relation is not yet established. -/
def _replica_consensus_reached (s : CharmState) : Bool :=
  match s.replicaData with
  | none => false
  | some d => _wordpress_secret_key_fields.all (fun f => pyTruthy (d.lookup f))

/-- `_current_effective_db_info`: database info from config takes precedence
over database info provided by relations, all-or-nothing: if any of the four
config options is falsy, all four values are taken from the
`relation_db_*` stored state. -/
def _current_effective_db_info (s : CharmState) : List (String × Option String) :=
  let database_info : List (String × Option String) :=
    [("DB_HOST", some s.cfgDbHost), ("DB_NAME", some s.cfgDbName),
     ("DB_USER", some s.cfgDbUser), ("DB_PASSWORD", some s.cfgDbPassword)]
  if database_info.any (fun kv => !(pyTruthy kv.2)) then
    [("DB_HOST", s.relDbHost), ("DB_NAME", s.relDbName),
     ("DB_USER", s.relDbUser), ("DB_PASSWORD", s.relDbPassword)]
  else
    database_info

/-- The fixed leading block of `_gen_wp_config` (the first `textwrap.dedent`
literal of the source). -/
def wpConfigHeader : String :=
  "<?php\n# This file is managed by Juju. Do not make local changes.\nif (strpos($_SERVER['HTTP_X_FORWARDED_PROTO'], 'https') !== false) \x7b\n    $_SERVER['HTTPS']='on';\n\x7d\n$table_prefix = 'wp_';\n$_w_p_http_protocol = 'http://';\nif (!empty($_SERVER['HTTPS']) && 'off' != $_SERVER['HTTPS']) \x7b\n    $_w_p_http_protocol = 'https://';\n\x7d\ndefine( 'WP_PLUGIN_URL', $_w_p_http_protocol . $_SERVER['HTTP_HOST'] . '/wp-content/plugins' );\ndefine( 'WP_CONTENT_URL', $_w_p_http_protocol . $_SERVER['HTTP_HOST'] . '/wp-content' );\ndefine( 'WP_SITEURL', $_w_p_http_protocol . $_SERVER['HTTP_HOST'] );\ndefine( 'WP_URL', $_w_p_http_protocol . $_SERVER['HTTP_HOST'] );\ndefine( 'WP_HOME', $_w_p_http_protocol . $_SERVER['HTTP_HOST'] );"

/-- The trailing block of `_gen_wp_config` (the last `textwrap.dedent`
literal of the source, which ends with a newline). -/
def wpConfigFooter : String :=
  "if ( ! defined( 'ABSPATH' ) ) \x7b\n    define( 'ABSPATH', __DIR__ . '/' );\n\x7d\n\n/** Sets up WordPress vars and included files. */\nrequire_once ABSPATH . 'wp-settings.php';\n"

/-- One `define( 'KEY', 'value' );` line of wp-config.php. -/
def defineLine (key value : String) : String :=
  "define( '" ++ key ++ "', '" ++ value ++ "' );"

/-- The secret-key loop of `_gen_wp_config`: one `define` line per secret
key field, `none` when a secret value is missing or empty (the `ValueError`
of the source). -/
def secretLinesOf (d : List (String × String)) : List String → Option (List String)
  | [] => some []
  | f :: rest =>
    match d.lookup f with
    | some v =>
      if v == "" then none
      else (secretLinesOf d rest).map (fun l => defineLine (pyUpper f) v :: l)
    | none => none

/-- `_gen_wp_config`: generate the wp-config.php content.  Returns `none` on
the exception paths of the source: `_ReplicaRelationNotReady` when the peer
relation is absent, and the `ValueError` raised when a secret key value is
missing or empty. -/
def _gen_wp_config (s : CharmState) : Option String :=
  match s.replicaData with
  | none => none
  | some d =>
    let dbLines := (_current_effective_db_info s).map
      (fun kv => defineLine kv.1 (pyShow kv.2))
    match secretLinesOf d _wordpress_secret_key_fields with
    | none => none
    | some sl =>
      some (String.intercalate "\n"
        ([wpConfigHeader] ++ dbLines
          ++ ["define( 'DB_CHARSET',  'utf8mb4' );"]
          ++ sl
          ++ ["define( 'DISALLOW_FILE_MODS', true );",
              "define( 'AUTOMATIC_UPDATER_DISABLED', true );",
              "define( 'WP_CACHE', true );",
              wpConfigFooter]))

/-- `_stop_server`: stop the service when the layer exists and the service is
running (idempotent). -/
def _stop_server (s : CharmState) : CharmState × List Eff :=
  if s.serviceExists && s.serviceRunning then
    ({ s with serviceRunning := false }, [Eff.stopService])
  else
    (s, [])

/-- `_init_pebble_layer`: ensure the WordPress layer exists in pebble. -/
def _init_pebble_layer (s : CharmState) : CharmState :=
  { s with serviceExists := true }

/-- The connectivity retry loop of `_start_server`: probe attempts `i`,
`i+1`, ... while fuel lasts; returns the number of probes made and whether
one succeeded. -/
def dbTries (s : CharmState) (i : Nat) : Nat → Nat × Bool
  | 0 => (0, false)
  | fuel + 1 =>
    if s.dbCheck i then (1, true)
    else
      let r := dbTries s (i + 1) fuel
      (r.1 + 1, r.2)

/-- Message of the `FileNotFoundError` in `_start_server`. -/
def msgWpConfigMissing : String :=
  "required file (wp-config.php) for starting WordPress server not exists"

/-- Final step of `_start_server`: start the service if it is not running. -/
def startIfStopped (s : CharmState) (effs : List Eff) : Res :=
  if s.serviceRunning then ⟨s, effs, none⟩
  else ⟨{ s with serviceRunning := true },
        effs ++ [Eff.startService s.currentWpConfig.isSome], none⟩

/-- `_start_server`: ensure the pebble layer exists; on the leader, probe
database connectivity up to 30 times (raising
`WordPressBlockedStatusException` with the MySQL error message if all probes
fail), install WordPress if it is not installed (raising
`WordPressInstallError` if the install command fails), and raise
`FileNotFoundError` if wp-config.php does not exist; finally start the
service if it is not running.  The construction of the `wp core install`
command from the `initial_settings` yaml is abstracted into the single
effect `wpInstallCmd`. -/
def _start_server (s0 : CharmState) : Res :=
  let s := _init_pebble_layer s0
  if s.isLeader then
    let t := dbTries s 0 30
    let ce := List.replicate t.1 Eff.dbConnCheck
    if t.2 then
      if s.wpInstalled then
        if s.currentWpConfig.isSome then startIfStopped s ce
        else ⟨s, ce, some (WPErr.fatal msgWpConfigMissing)⟩
      else
        if s.execOk Eff.wpInstallCmd then
          let s2 := { s with wpInstalled := true }
          if s2.currentWpConfig.isSome then
            startIfStopped s2 (ce ++ [Eff.wpInstallCmd])
          else ⟨s2, ce ++ [Eff.wpInstallCmd], some (WPErr.fatal msgWpConfigMissing)⟩
        else ⟨s, ce ++ [Eff.wpInstallCmd],
              some (WPErr.installError "check logs for more information")⟩
    else ⟨s, ce, some (WPErr.blocked s.dbErrMsg)⟩
  else startIfStopped s []

/-- `_remove_wp_config`: raise `RuntimeError` when the WordPress service is
running (leaving the file untouched); remove the file otherwise.  The
`get_service` lookup raises an ops model error when the service does not
exist in the plan. -/
def _remove_wp_config (s : CharmState) : Res :=
  if !s.serviceExists then
    ⟨s, [], some (WPErr.fatal "service wordpress not found in plan")⟩
  else if s.serviceRunning then
    ⟨s, [], some (WPErr.fatal
      "trying to delete wp-config.php while WordPress server is running")⟩
  else
    ⟨{ s with currentWpConfig := none },
     [Eff.removeWpConfigFile s.serviceRunning], none⟩

/-- `_push_wp_config`: update wp-config.php in the container. -/
def _push_wp_config (s : CharmState) (wpConfig : String) : CharmState × List Eff :=
  ({ s with currentWpConfig := some wpConfig }, [Eff.pushWpConfig wpConfig])

/-- Whether all four `db_*` config options are truthy (the
`available_db_config` tuple of `_core_reconciliation` has length 4). -/
def dbConfigComplete (s : CharmState) : Bool :=
  !(s.cfgDbHost == "") && !(s.cfgDbName == "")
    && !(s.cfgDbUser == "") && !(s.cfgDbPassword == "")

/-- Whether all four `relation_db_*` stored-state values are truthy (the
`available_db_relation` tuple of `_core_reconciliation` has length 4). -/
def dbRelationComplete (s : CharmState) : Bool :=
  pyTruthy s.relDbHost && pyTruthy s.relDbName
    && pyTruthy s.relDbUser && pyTruthy s.relDbPassword

/-- `_core_reconciliation`: raise a waiting-status exception (after stopping
the server) when replica consensus is not reached; raise a blocked-status
exception (after stopping the server) when neither the charm config nor the
db relation provides all four database settings; otherwise generate
wp-config.php, push it (after stopping the server) when it differs from the
current one, and start the server when wp-config.php exists. -/
def _core_reconciliation (s : CharmState) : Res :=
  if !(_replica_consensus_reached s) then
    let r := _stop_server s
    ⟨r.1, r.2, some (WPErr.waiting "Waiting for unit consensus")⟩
  else
    let cfg4 := dbConfigComplete s
    let rel4 := dbRelationComplete s
    if !cfg4 && !rel4 then
      let r := _stop_server s
      ⟨r.1, r.2, some (WPErr.blocked "Waiting for db relation/config")⟩
    else
      match _gen_wp_config s with
      | none => ⟨s, [], some (WPErr.fatal "ValueError generating wp-config.php")⟩
      | some wpConfig =>
        let r1 : CharmState × List Eff :=
          if some wpConfig == s.currentWpConfig then (s, [])
          else
            let ra := _stop_server s
            let rb := _push_wp_config ra.1 wpConfig
            (rb.1, ra.2 ++ rb.2)
        if r1.1.currentWpConfig.isSome then
          let r2 := _start_server r1.1
          ⟨r2.state, r1.2 ++ r2.effs, r2.err⟩
        else ⟨r1.1, r1.2, none⟩

/-- The comma-separated addon names of the `themes`/`plugins` config option:
split on `","`, strip whitespace, drop empty entries (the list comprehension
in `_addon_reconciliation`). -/
def _addons_in_config (cfgStr : String) : List String :=
  ((pySplitChar cfgStr ',').map (fun t => pyStrip t)).filter (fun t => !(t == ""))

/-- The built-in default addon list for an addon type. -/
def defaultAddons (ty : String) : List String :=
  if ty == "theme" then _WORDPRESS_DEFAULT_THEMES else _WORDPRESS_DEFAULT_PLUGINS

/-- The `themes` resp. `plugins` config option of the state. -/
def cfgAddonStr (s : CharmState) (ty : String) : String :=
  if ty == "theme" then s.cfgThemes else s.cfgPlugins

/-- `_wp_addon_list`: the installed-addon listing the charm observes through
`wp {addon_type} list --format=json` (name/status records). -/
def _wp_addon_list (s : CharmState) (ty : String) : List (String × String) :=
  if ty == "theme" then s.installedThemes else s.installedPlugins

/-- Effect of a successful `wp {ty} install` on the observed listing. -/
def addonAdd (s : CharmState) (ty n : String) : CharmState :=
  if ty == "theme" then
    { s with installedThemes := s.installedThemes ++ [(n, "inactive")] }
  else
    { s with installedPlugins := s.installedPlugins ++ [(n, "inactive")] }

/-- Effect of a successful `wp {ty} delete/uninstall` on the observed
listing. -/
def addonRemove (s : CharmState) (ty n : String) : CharmState :=
  if ty == "theme" then
    { s with installedThemes := s.installedThemes.filter (fun kv => !(kv.1 == n)) }
  else
    { s with installedPlugins := s.installedPlugins.filter (fun kv => !(kv.1 == n)) }

/-- Python `repr` of an addon name (names contain no quote characters). -/
def pyRepr (n : String) : String := "'" ++ n ++ "'"

/-- The install loop of `_addon_reconciliation`: one `_wp_addon_install` per
name, raising `WordPressBlockedStatusException` at the first failure. -/
def installLoop (ty : String) : CharmState → List String → Res
  | s, [] => ⟨s, [], none⟩
  | s, n :: rest =>
    let e := Eff.addonInstall ty n
    if s.execOk e then
      let r := installLoop ty (addonAdd s ty n) rest
      ⟨r.state, e :: r.effs, r.err⟩
    else
      ⟨s, [e], some (WPErr.blocked ("failed to install " ++ ty ++ " " ++ pyRepr n))⟩

/-- The uninstall loop of `_addon_reconciliation`: one `_wp_addon_uninstall`
per name, raising `WordPressBlockedStatusException` at the first failure. -/
def uninstallLoop (ty : String) : CharmState → List String → Res
  | s, [] => ⟨s, [], none⟩
  | s, n :: rest =>
    let e := Eff.addonUninstall ty n
    if s.execOk e then
      let r := uninstallLoop ty (addonRemove s ty n) rest
      ⟨r.state, e :: r.effs, r.err⟩
    else
      ⟨s, [e], some (WPErr.blocked ("failed to uninstall " ++ ty ++ " " ++ pyRepr n))⟩

/-- The desired addon set of `_addon_reconciliation`:
`set(itertools.chain(addons_in_config, default_addons))`, as a duplicate-free
list. -/
def desiredAddons (s : CharmState) (ty : String) : List String :=
  (_addons_in_config (cfgAddonStr s ty) ++ defaultAddons ty).dedup

/-- The currently installed addon name set of `_addon_reconciliation`, as a
duplicate-free list. -/
def currentAddons (s : CharmState) (ty : String) : List String :=
  ((_wp_addon_list s ty).map Prod.fst).dedup

/-- `install_addons = desired_addons - current_installed_addons`, as a
duplicate-free list. -/
def installsOf (s : CharmState) (ty : String) : List String :=
  (desiredAddons s ty).filter (fun n => !((currentAddons s ty).contains n))

/-- `uninstall_addons = current_installed_addons - desired_addons`, as a
duplicate-free list. -/
def uninstallsOf (s : CharmState) (ty : String) : List String :=
  (currentAddons s ty).filter (fun n => !((desiredAddons s ty).contains n))

/-- `_addon_reconciliation`: diff the desired addon set (config union
defaults) against the installed listing and run the install loop followed by
the uninstall loop.  Python set iteration order is unspecified; the embedding
iterates the duplicate-free difference lists in a fixed order.
`_check_addon_type` raises `ValueError` on an unknown addon type. -/
def _addon_reconciliation (s : CharmState) (ty : String) : Res :=
  if !(ty == "theme" || ty == "plugin") then
    ⟨s, [], some (WPErr.fatal ("Addon type unknown " ++ pyRepr ty ++ ", accept: (theme, plugin)"))⟩
  else
    (installLoop ty s (installsOf s ty)).seq
      (fun s2 => uninstallLoop ty s2 (uninstallsOf s ty))

/-- `_theme_reconciliation`. -/
def _theme_reconciliation (s : CharmState) : Res :=
  _addon_reconciliation s "theme"

/-- Result type of the `_ExecResult`-returning plugin helpers: success flag
and error message (the `result` field of the source is always `None`). -/
structure ExecRes where
  success : Bool
  message : String
deriving DecidableEq

/-- Result of a plugin helper: new state, issued effects, `_ExecResult`. -/
structure PRes where
  state : CharmState
  effs : List Eff
  res : ExecRes

/-- The `{p["name"]: p["status"]}` dict lookup of
`_perform_plugin_activate_or_deactivate` (later entries win in a Python dict
comprehension). -/
def pluginStatusMapGet (s : CharmState) (p : String) : Option String :=
  (s.installedPlugins.reverse).lookup p

/-- Effect of a successful `wp plugin activate/deactivate` on the observed
plugin listing. -/
def setPluginStatus (s : CharmState) (p st : String) : CharmState :=
  { s with installedPlugins :=
      s.installedPlugins.map (fun kv => if kv.1 == p then (kv.1, st) else kv) }

/-- `_perform_plugin_activate_or_deactivate` (the two call sites pass the
literal actions `"activate"` / `"deactivate"`, embedded as a Bool; the
`ValueError` branch for other action strings is unreachable).  The plugin
listing is the observed state, fails for a non-existent plugin, issues the
activate/deactivate command only when the current status differs from the
target. -/
def _perform_plugin_activate_or_deactivate (s : CharmState) (plugin : String)
    (activate : Bool) : PRes :=
  let actName := if activate then "activate" else "deactivate"
  match pluginStatusMapGet s plugin with
  | none => ⟨s, [], ⟨false, actName ++ " a non-existent plugin " ++ plugin⟩⟩
  | some st =>
    let isActive := st == "active"
    if isActive != activate then
      let e := if activate then Eff.pluginActivate plugin else Eff.pluginDeactivate plugin
      if s.execOk e then
        ⟨setPluginStatus s plugin (if activate then "active" else "inactive"), [e], ⟨true, ""⟩⟩
      else
        ⟨s, [e], ⟨false, "failed to " ++ actName ++ " plugin " ++ plugin⟩⟩
    else ⟨s, [], ⟨true, ""⟩⟩

/-- The option-update loop of `_activate_plugin`; options carry
(name, rendered value, format), dict values being rendered with
`json.dumps`. -/
def updateOptionsLoop (plugin : String) : CharmState → List (String × String × String) → PRes
  | s, [] => ⟨s, [], ⟨true, ""⟩⟩
  | s, (o, v, fmt) :: rest =>
    let e := Eff.optionUpdate o v fmt
    if s.execOk e then
      let r := updateOptionsLoop plugin s rest
      ⟨r.state, e :: r.effs, r.res⟩
    else
      ⟨s, [e], ⟨false, "failed to update option " ++ o ++ " after activating plugin " ++ plugin⟩⟩

/-- The option-delete loop of `_deactivate_plugin`. -/
def deleteOptionsLoop (plugin : String) : CharmState → List String → PRes
  | s, [] => ⟨s, [], ⟨true, ""⟩⟩
  | s, o :: rest =>
    let e := Eff.optionDelete o
    if s.execOk e then
      let r := deleteOptionsLoop plugin s rest
      ⟨r.state, e :: r.effs, r.res⟩
    else
      ⟨s, [e], ⟨false, "failed to delete option " ++ o ++ " after deactivating plugin " ++ plugin⟩⟩

/-- `_activate_plugin`: activate, then update the related options. -/
def _activate_plugin (s : CharmState) (plugin : String)
    (options : List (String × String × String)) : PRes :=
  let t := _perform_plugin_activate_or_deactivate s plugin true
  if t.res.success then
    let r := updateOptionsLoop plugin t.state options
    ⟨r.state, t.effs ++ r.effs, r.res⟩
  else t

/-- `_deactivate_plugin`: deactivate, then delete the related options. -/
def _deactivate_plugin (s : CharmState) (plugin : String)
    (options : List String) : PRes :=
  let t := _perform_plugin_activate_or_deactivate s plugin false
  if t.res.success then
    let r := deleteOptionsLoop plugin t.state options
    ⟨r.state, t.effs ++ r.effs, r.res⟩
  else t

/-- `_plugin_akismet_reconciliation`. -/
def _plugin_akismet_reconciliation (s : CharmState) : Res :=
  let akismetKey := pyStrip s.cfgAkismetKey
  let r : PRes :=
    if akismetKey == "" then
      _deactivate_plugin s "akismet"
        ["akismet_strictness", "akismet_show_user_comments_approved", "wordpress_api_key"]
    else
      _activate_plugin s "akismet"
        [("akismet_strictness", "0", "plaintext"),
         ("akismet_show_user_comments_approved", "0", "plaintext"),
         ("wordpress_api_key", akismetKey, "plaintext")]
  if r.res.success then ⟨r.state, r.effs, none⟩
  else ⟨r.state, r.effs,
        some (WPErr.blocked ("Unable to config akismet plugin, " ++ r.res.message))⟩

/-- The per-mapping encoder of `_encode_openid_team_map`; `none` models the
`ValueError` of unpacking `mapping.split("=", 2)` into two names when the
mapping does not consist of exactly one `=`. -/
def encodeTeamMappings : Nat → List String → Option (List String)
  | _, [] => some []
  | i, m :: rest =>
    match pySplitChar m '=' with
    | [team, role] =>
      let block := "i:" ++ toString (i + 1) ++ ";"
        ++ "O:8:\"stdClass\":4:\x7b"
        ++ "s:2:\"id\";"
        ++ "i:" ++ toString (i + 1) ++ ";"
        ++ "s:4:\"team\";"
        ++ "s:" ++ toString team.length ++ ":\"" ++ team ++ "\";"
        ++ "s:4:\"role\";"
        ++ "s:" ++ toString role.length ++ ":\"" ++ role ++ "\";"
        ++ "s:6:\"server\";"
        ++ "s:1:\"0\";"
        ++ "\x7d"
      (encodeTeamMappings (i + 1) rest).map (fun l => block :: l)
    | _ => none

/-- `_encode_openid_team_map`: serialize the team map option into a PHP
array literal; `none` models the `ValueError` on a malformed mapping. -/
def _encode_openid_team_map (teamMap : String) : Option String :=
  (encodeTeamMappings 0 (pySplitChar teamMap ',')).map (fun blocks =>
    String.join (("a:" ++ toString (pySplitChar teamMap ',').length ++ ":\x7b") :: blocks)
      ++ "\x7d")

/-- `_plugin_openid_reconciliation`. -/
def _plugin_openid_reconciliation (s : CharmState) : Res :=
  let teamMap := pyStrip s.cfgOpenidTeamMap
  if teamMap == "" then
    let r := _deactivate_plugin s "openid"
      ["openid_required_for_registration", "openid_teams_trust_list"]
    if r.res.success then ⟨r.state, r.effs, none⟩
    else ⟨r.state, r.effs,
          some (WPErr.blocked ("Unable to config openid plugin, " ++ r.res.message))⟩
  else
    match _encode_openid_team_map teamMap with
    | none => ⟨s, [], some (WPErr.fatal "ValueError in _encode_openid_team_map")⟩
    | some enc =>
      let r := _activate_plugin s "openid"
        [("openid_required_for_registration", "1", "plaintext"),
         ("openid_teams_trust_list", enc, "plaintext")]
      if r.res.success then ⟨r.state, r.effs, none⟩
      else ⟨r.state, r.effs,
            some (WPErr.blocked ("Unable to config openid plugin, " ++ r.res.message))⟩

/-- The comparison the source's membership test performs on each directory
entry: `enabled_config` is built as
`[name for name in container.list_files("/etc/apache2/conf-enabled")]`, a
list of `ops.pebble.FileInfo` objects, so `f"{conf_name}.conf" in
enabled_config` compares a `str` against `FileInfo` objects; `FileInfo`
defines no `__eq__`, hence every such comparison is `False` whatever the
entry is. -/
def strEqFileInfo (_query _entry : String) : Bool :=
  false

/-- `_apache_config_is_enabled`: test whether `{conf_name}.conf` occurs in
the listing of `/etc/apache2/conf-enabled`, entry by entry, with the
str-vs-`FileInfo` comparison the source actually performs — so the check
returns `False` regardless of which configurations are enabled. -/
def _apache_config_is_enabled (s : CharmState) (confName : String) : Bool :=
  s.apacheEnabledConfs.any (fun entry => strEqFileInfo (confName ++ ".conf") entry)

theorem apache_config_is_enabled_false (s : CharmState) (confName : String) :
    _apache_config_is_enabled s confName = false := by
  simp [_apache_config_is_enabled, strEqFileInfo]

/-- Replace-or-append update of an association list (file push semantics). -/
def setAssoc (l : List (String × String)) (k v : String) : List (String × String) :=
  if l.any (fun kv => kv.1 == k) then
    l.map (fun kv => if kv.1 == k then (k, v) else kv)
  else l ++ [(k, v)]

/-- State change of pushing a file to `/etc/apache2/conf-available`. -/
def apacheSetConf (s : CharmState) (confName conf : String) : CharmState :=
  { s with apacheConfAvailable := setAssoc s.apacheConfAvailable confName conf }

/-- State change of `a2enconf`: link the config into conf-enabled. -/
def apacheLink (s : CharmState) (confName : String) : CharmState :=
  { s with apacheEnabledConfs :=
      if s.apacheEnabledConfs.contains (confName ++ ".conf") then s.apacheEnabledConfs
      else s.apacheEnabledConfs ++ [confName ++ ".conf"] }

/-- State change of removing a file from `/etc/apache2/conf-available`. -/
def apacheRemoveConf (s : CharmState) (confName : String) : CharmState :=
  { s with apacheConfAvailable :=
      s.apacheConfAvailable.filter (fun kv => !(kv.1 == confName)) }

/-- State change of `a2disconf`: unlink the config from conf-enabled. -/
def apacheUnlink (s : CharmState) (confName : String) : CharmState :=
  { s with apacheEnabledConfs :=
      s.apacheEnabledConfs.filter (fun c => !(c == confName ++ ".conf")) }

/-- `_apache_enable_config`: stop the server, push the conf-available file,
run `a2enconf` (which links it into conf-enabled), start the server. -/
def _apache_enable_config (s : CharmState) (confName conf : String) : Res :=
  let r := _stop_server s
  let s2 := apacheLink (apacheSetConf r.1 confName conf) confName
  let r2 := _start_server s2
  ⟨r2.state, r.2 ++ [Eff.apachePush confName conf, Eff.runA2enconf confName] ++ r2.effs, r2.err⟩

/-- `_apache_disable_config`: stop the server, remove the conf-available
file, run `a2disconf` (which unlinks it from conf-enabled), start the
server. -/
def _apache_disable_config (s : CharmState) (confName : String) : Res :=
  let r := _stop_server s
  let s2 := apacheUnlink (apacheRemoveConf r.1 confName) confName
  let r2 := _start_server s2
  ⟨r2.state, r.2 ++ [Eff.apacheRemove confName, Eff.runA2disconf confName] ++ r2.effs, r2.err⟩

/-- The key list `swift_config_key` of `_plugin_swift_reconciliation`. -/
def swiftConfigKeys : List String :=
  ["auth-url", "bucket", "password", "object-prefix", "region", "tenant",
   "domain", "swift-url", "username", "copy-to-swift", "serve-from-swift",
   "remove-local-file"]

/-- Rendering of `json.dumps` on the parsed swift mapping (exact json
formatting abstracted; only used as an opaque option value). -/
def jsonDumps (d : List (String × String)) : String :=
  "\x7b" ++ String.intercalate ", "
    (d.map (fun kv => "\"" ++ kv.1 ++ "\": \"" ++ kv.2 ++ "\"")) ++ "\x7d"

/-- `os.path.join` on two POSIX path components. -/
def posixJoin (a b : String) : String :=
  if b.startsWith "/" then b
  else if a == "" then b
  else if a.endsWith "/" then a ++ b
  else a ++ "/" ++ b

/-- `_plugin_swift_reconciliation`: deactivate the storage plugin when the
swift option is empty, otherwise check the twelve required keys, activate the
plugin with the serialized option, and enable the apache
`docker-php-swift-proxy` configuration when swift is enabled but the
`_apache_config_is_enabled` check reports it disabled — which it always does
(see `strEqFileInfo`), so the enable path runs on every invocation with
swift configured.  When swift is disabled, `_apache_disable_config` is never
invoked: the `elif` branch of the source merely re-runs the read-only
`_apache_config_is_enabled` check. -/
def _plugin_swift_reconciliation (s : CharmState) : Res :=
  match s.cfgSwift with
  | none =>
    let r := _deactivate_plugin s "openstack-objectstorage-k8s" ["object_storage"]
    if r.res.success then
      -- elif not enable_swift and swift_apache_config_enabled:
      --     self._apache_config_is_enabled(apache_swift_conf)   (a no-op read)
      ⟨r.state, r.effs, none⟩
    else
      ⟨r.state, r.effs, some (WPErr.blocked
        ("Unable to config openstack-objectstorage-k8s plugin, " ++ r.res.message))⟩
  | some swiftConfig =>
    match swiftConfigKeys.find? (fun k => (swiftConfig.lookup k).isNone) with
    | some k =>
      ⟨s, [], some (WPErr.blocked ("missing " ++ k ++ " in wp_plugin_openstack-objectstorage_config"))⟩
    | none =>
      let r := _activate_plugin s "openstack-objectstorage-k8s"
        [("object_storage", jsonDumps swiftConfig, "json")]
      if r.res.success then
        if _apache_config_is_enabled r.state "docker-php-swift-proxy" then
          ⟨r.state, r.effs, none⟩
        else
          let redirectUrl := posixJoin
            (posixJoin ((swiftConfig.lookup "swift-url").getD "")
              ((swiftConfig.lookup "bucket").getD ""))
            ((swiftConfig.lookup "object-prefix").getD "")
          let conf := "SSLProxyEngine on\nProxyPass /wp-content/uploads/ "
            ++ redirectUrl ++ "\nProxyPassReverse /wp-content/uploads/ "
            ++ redirectUrl ++ "\nTimeout 300\n"
          let r2 := _apache_enable_config r.state "docker-php-swift-proxy" conf
          ⟨r2.state, r.effs ++ r2.effs, r2.err⟩
      else
        ⟨r.state, r.effs, some (WPErr.blocked
          ("Unable to config openstack-objectstorage-k8s plugin, " ++ r.res.message))⟩

/-- `_plugin_reconciliation`: addon reconciliation for plugins, then (on the
leader only) the akismet, openid and swift plugin reconciliations. -/
def _plugin_reconciliation (s : CharmState) : Res :=
  (_addon_reconciliation s "plugin").seq (fun s1 =>
    if s1.isLeader then
      (_plugin_akismet_reconciliation s1).seq (fun s2 =>
        (_plugin_openid_reconciliation s2).seq (fun s3 =>
          _plugin_swift_reconciliation s3))
    else ⟨s1, [], none⟩)

/-- Outcome of one `_reconciliation` hook invocation: either a unit status
was assigned, or an exception that is not a `WordPressStatusException`
escaped the handler (crashing the hook). -/
inductive HookOutcome where
  | status (st : UnitStatus) : HookOutcome
  | crashed (msg : String) : HookOutcome
deriving DecidableEq

/-- Result of one `_reconciliation` invocation. -/
structure RunResult where
  state : CharmState
  effs : List Eff
  outcome : HookOutcome

/-- The body of the `try` block of `_reconciliation`: core, then theme, then
plugin reconciliation. -/
def reconciliationSteps (s : CharmState) : Res :=
  (_core_reconciliation s).seq (fun s1 =>
    (_theme_reconciliation s1).seq (fun s2 =>
      _plugin_reconciliation s2))

/-- `_reconciliation`: return early with `WaitingStatus("Waiting for
pebble")` when the container supervisor cannot be connected; otherwise run
the three reconciliation steps, set `ActiveStatus` on success, and on a
raised `WordPressStatusException` set its status on the unit (any other
exception escapes the handler). -/
def _reconciliation (s : CharmState) : RunResult :=
  if !s.canConnect then
    ⟨s, [], HookOutcome.status (UnitStatus.waiting "Waiting for pebble")⟩
  else
    let r := reconciliationSteps s
    match r.err with
    | none => ⟨r.state, r.effs, HookOutcome.status UnitStatus.active⟩
    | some e =>
      if e.isStatusExc then ⟨r.state, r.effs, HookOutcome.status e.toStatus⟩
      else ⟨r.state, r.effs, HookOutcome.crashed "uncaught exception"⟩

/-- The event kinds observed in `WordpressCharm.__init__`. -/
inductive EventKind where
  | configChanged : EventKind
  | wordpressPebbleReady : EventKind
  | replicaRelationChanged : EventKind
  | dbDatabaseChanged : EventKind
  | leaderElected : EventKind
  | getInitialPasswordAction : EventKind
deriving DecidableEq

/-- The handler methods wired in `WordpressCharm.__init__`. -/
inductive Handler where
  | reconciliationHandler : Handler
  | leaderElectedReplicaDataHandler : Handler
  | relationDatabaseChangedHandler : Handler
  | getInitialPasswordActionHandler : Handler
deriving DecidableEq

/-- The `framework.observe` registrations of `WordpressCharm.__init__`, in
source order. -/
def observers : List (EventKind × Handler) := [
  (EventKind.getInitialPasswordAction, Handler.getInitialPasswordActionHandler),
  (EventKind.leaderElected, Handler.leaderElectedReplicaDataHandler),
  (EventKind.dbDatabaseChanged, Handler.relationDatabaseChangedHandler),
  (EventKind.configChanged, Handler.reconciliationHandler),
  (EventKind.wordpressPebbleReady, Handler.reconciliationHandler),
  (EventKind.replicaRelationChanged, Handler.reconciliationHandler),
  (EventKind.dbDatabaseChanged, Handler.reconciliationHandler)]

/-- Whether a handler's body invokes `_reconciliation`:
`_on_leader_elected_replica_data_handler` only generates and stores the
secret data in the peer relation, `_on_relation_database_changed` only copies
the event fields into stored state, and the action handler only reads the
stored password; none of them calls `_reconciliation`. -/
def handlerRunsReconciliation : Handler → Bool
  | Handler.reconciliationHandler => true
  | _ => false

/-! ### Example states used by witnesses and counterexamples -/

/-- A complete peer relation data bag (all secret key fields set). -/
def stSecrets : List (String × String) :=
  _wordpress_secret_key_fields.map (fun f => (f, "k"))

/-- A fully provisioned leader state: pebble reachable, database configured
through config options, consensus reached, WordPress installed and running,
exactly the default themes/plugins installed, all probes and commands
succeeding. -/
def stBase : CharmState := {
  canConnect := true
  isLeader := true
  cfgDbHost := "h", cfgDbName := "n", cfgDbUser := "u", cfgDbPassword := "p"
  cfgThemes := "", cfgPlugins := ""
  cfgAkismetKey := "", cfgOpenidTeamMap := ""
  cfgSwift := none
  relDbHost := none, relDbName := none, relDbUser := none, relDbPassword := none
  replicaData := some stSecrets
  serviceExists := true, serviceRunning := true
  currentWpConfig := none
  wpInstalled := true
  installedThemes := _WORDPRESS_DEFAULT_THEMES.map (fun n => (n, "inactive"))
  installedPlugins := _WORDPRESS_DEFAULT_PLUGINS.map (fun n => (n, "inactive"))
  apacheEnabledConfs := []
  apacheConfAvailable := []
  dbCheck := fun _ => true
  dbErrMsg := "MySQL error 2003"
  execOk := fun _ => true }

/-- `stBase` with the current wp-config.php content equal to the generated
one (a converged state per claim C2's reading). -/
def stConv : CharmState := { stBase with currentWpConfig := _gen_wp_config stBase }

/-- `_gen_wp_config` does not depend on the current wp-config.php content. -/
theorem gen_wp_config_set_current (s : CharmState) (v : Option String) :
    _gen_wp_config { s with currentWpConfig := v } = _gen_wp_config s := rfl

/-! ### Claim C4 -/

/-- Claim C4, counterexample: the only handler wired to `leader_elected` is
`_on_leader_elected_replica_data_handler`, which does not run
`_reconciliation`; so it is false that for every listed event kind
(including leader elections) the wired handler runs `_reconciliation`. -/
theorem c4_counterexample :
    (observers.filter (fun p => p.1 == EventKind.leaderElected)).map Prod.snd
        = [Handler.leaderElectedReplicaDataHandler]
      ∧ handlerRunsReconciliation Handler.leaderElectedReplicaDataHandler = false := by
  decide

/-- Claim C4, amended: `_reconciliation` is wired to config changes,
container readiness (pebble ready), changes of the `wordpress-replica` peer
relation and changes of the db relation; leader elections are instead wired
(only) to the replica-data initialization handler, which does not run
`_reconciliation`. -/
theorem c4_reconciliation_wiring :
    (EventKind.configChanged, Handler.reconciliationHandler) ∈ observers
      ∧ (EventKind.wordpressPebbleReady, Handler.reconciliationHandler) ∈ observers
      ∧ (EventKind.replicaRelationChanged, Handler.reconciliationHandler) ∈ observers
      ∧ (EventKind.dbDatabaseChanged, Handler.reconciliationHandler) ∈ observers
      ∧ (observers.filter (fun p => p.1 == EventKind.leaderElected)).map Prod.snd
          = [Handler.leaderElectedReplicaDataHandler]
      ∧ handlerRunsReconciliation Handler.leaderElectedReplicaDataHandler = false := by
  decide

/-! ### Claim C5 -/

theorem reconciliation_no_connect (s : CharmState) (h : s.canConnect = false) :
    _reconciliation s
      = ⟨s, [], HookOutcome.status (UnitStatus.waiting "Waiting for pebble")⟩ := by
  simp [_reconciliation, h]

/-- Claim C5: when the container supervisor cannot be connected,
`_reconciliation` sets `WaitingStatus("Waiting for pebble")` and returns
without performing any reconciliation step: no effect is issued and the
state is unchanged. -/
theorem c5_pebble_gate (s : CharmState) (h : s.canConnect = false) :
    _reconciliation s
      = ⟨s, [], HookOutcome.status (UnitStatus.waiting "Waiting for pebble")⟩ :=
  reconciliation_no_connect s h

/-- Witness for C5 at a concrete state. -/
theorem c5_pebble_gate_witness :
    _reconciliation { stBase with canConnect := false }
      = ⟨{ stBase with canConnect := false }, [],
         HookOutcome.status (UnitStatus.waiting "Waiting for pebble")⟩ :=
  c5_pebble_gate { stBase with canConnect := false } rfl

/-! ### Claim C8 -/

/-- Claim C8: the effective database info is all-or-nothing: it consists of
the four charm-config values exactly when all four config options are
non-empty, and otherwise all four values are taken from the
relation-provided stored state — never a mixture. -/
theorem c8_db_info_all_or_nothing (s : CharmState) :
    _current_effective_db_info s =
      if s.cfgDbHost ≠ "" ∧ s.cfgDbName ≠ "" ∧ s.cfgDbUser ≠ "" ∧ s.cfgDbPassword ≠ "" then
        [("DB_HOST", some s.cfgDbHost), ("DB_NAME", some s.cfgDbName),
         ("DB_USER", some s.cfgDbUser), ("DB_PASSWORD", some s.cfgDbPassword)]
      else
        [("DB_HOST", s.relDbHost), ("DB_NAME", s.relDbName),
         ("DB_USER", s.relDbUser), ("DB_PASSWORD", s.relDbPassword)] := by
  by_cases h1 : s.cfgDbHost = "" <;> by_cases h2 : s.cfgDbName = "" <;>
    by_cases h3 : s.cfgDbUser = "" <;> by_cases h4 : s.cfgDbPassword = "" <;>
    simp [_current_effective_db_info, pyTruthy, h1, h2, h3, h4]

/-! ### Effect-kind predicates and frame lemmas -/

/-- `wp plugin activate/deactivate` commands. -/
def isToggleEff : Eff → Bool
  | .pluginActivate _ => true
  | .pluginDeactivate _ => true
  | _ => false

/-- `wp option update` commands. -/
def isOptionUpdateEff : Eff → Bool
  | .optionUpdate _ _ _ => true
  | _ => false

/-- `wp option delete` commands. -/
def isOptionDeleteEff : Eff → Bool
  | .optionDelete _ => true
  | _ => false

/-- Effects that are neither apache `conf-available` file removals nor
`a2disconf` invocations. -/
def notApacheDisable : Eff → Bool
  | .apacheRemove _ => false
  | .runA2disconf _ => false
  | _ => true

theorem all_imp {p q : Eff → Bool} (h : ∀ e, p e = true → q e = true)
    (l : List Eff) (hl : l.all p = true) : l.all q = true := by
  rw [List.all_eq_true] at *
  exact fun e he => h e (hl e he)

/-- `a` agrees with `b` on every field except possibly `installedPlugins`,
whose plugin names are nevertheless the same (only statuses may differ). -/
def PluginFrame (a b : CharmState) : Prop :=
  ∃ ps, a = { b with installedPlugins := ps }
    ∧ ps.map Prod.fst = b.installedPlugins.map Prod.fst

theorem pluginFrame_refl (s : CharmState) : PluginFrame s s :=
  ⟨s.installedPlugins, Eq.refl s, Eq.refl _⟩

theorem pluginFrame_trans {a b c : CharmState}
    (h1 : PluginFrame a b) (h2 : PluginFrame b c) : PluginFrame a c := by
  obtain ⟨ps, hps, hn⟩ := h1
  obtain ⟨qs, hqs, hm⟩ := h2
  subst hqs
  exact ⟨ps, hps, by simpa using hn.trans (by simpa using hm)⟩

theorem setPluginStatus_names (l : List (String × String)) (p st : String) :
    (l.map (fun kv => if kv.1 == p then (kv.1, st) else kv)).map Prod.fst
      = l.map Prod.fst := by
  induction l with
  | nil => rfl
  | cons kv t ih =>
    simp only [List.map_cons, ih, List.cons.injEq, and_true]
    split <;> rfl

theorem setPluginStatus_frame (s : CharmState) (p st : String) :
    PluginFrame (setPluginStatus s p st) s :=
  ⟨_, rfl, setPluginStatus_names s.installedPlugins p st⟩

/-- The option-delete loop does not change the state, and issues only
`wp option delete` commands. -/
theorem deleteOptionsLoop_spec (p : String) (s : CharmState) (l : List String) :
    (deleteOptionsLoop p s l).state = s
      ∧ (deleteOptionsLoop p s l).effs.all isOptionDeleteEff = true := by
  induction l with
  | nil => simp [deleteOptionsLoop]
  | cons o rest ih =>
    cases h : s.execOk (Eff.optionDelete o) <;>
      simp [deleteOptionsLoop, h, ih, isOptionDeleteEff]

/-- The option-update loop does not change the state, and issues only
`wp option update` commands. -/
theorem updateOptionsLoop_spec (p : String) (s : CharmState)
    (l : List (String × String × String)) :
    (updateOptionsLoop p s l).state = s
      ∧ (updateOptionsLoop p s l).effs.all isOptionUpdateEff = true := by
  induction l with
  | nil => simp [updateOptionsLoop]
  | cons o rest ih =>
    cases h : s.execOk (Eff.optionUpdate o.1 o.2.1 o.2.2) <;>
      simp [updateOptionsLoop, h, ih, isOptionUpdateEff]

/-- `_perform_plugin_activate_or_deactivate` only toggles plugin statuses
(plugin names and all other state fields are untouched) and issues only
activate/deactivate commands. -/
theorem perform_toggle_spec (s : CharmState) (p : String) (a : Bool) :
    PluginFrame (_perform_plugin_activate_or_deactivate s p a).state s
      ∧ (_perform_plugin_activate_or_deactivate s p a).effs.all isToggleEff = true := by
  unfold _perform_plugin_activate_or_deactivate
  cases hst : pluginStatusMapGet s p with
  | none => exact ⟨pluginFrame_refl s, by simp⟩
  | some st =>
    simp only
    cases a <;>
      simp only [Bool.false_eq_true, Bool.true_eq_false, if_false, if_true,
        eq_self_iff_true] <;>
      split_ifs <;>
      first
        | exact ⟨setPluginStatus_frame s p _, by simp [isToggleEff]⟩
        | exact ⟨pluginFrame_refl s, by simp [isToggleEff]⟩

/-- `_deactivate_plugin` only toggles plugin statuses and issues only
activate/deactivate and option-delete commands. -/
theorem deactivate_plugin_spec (s : CharmState) (p : String) (opts : List String) :
    PluginFrame (_deactivate_plugin s p opts).state s
      ∧ (_deactivate_plugin s p opts).effs.all
          (fun e => isToggleEff e || isOptionDeleteEff e) = true := by
  have hp := perform_toggle_spec s p false
  have hd := deleteOptionsLoop_spec p (_perform_plugin_activate_or_deactivate s p false).state opts
  unfold _deactivate_plugin
  simp only
  cases hsucc : (_perform_plugin_activate_or_deactivate s p false).res.success
  · simp only [hsucc, Bool.false_eq_true, if_false]
    exact ⟨hp.1, all_imp (fun e he => by simp [he]) _ hp.2⟩
  · simp only [hsucc, if_true]
    constructor
    · simpa [hd.1] using hp.1
    · simp only [List.all_append, Bool.and_eq_true]
      refine ⟨all_imp (fun e he => by simp [he]) _ hp.2, ?_⟩
      exact all_imp (fun e he => by simp [he]) _ hd.2

/-- `_activate_plugin` only toggles plugin statuses and issues only
activate/deactivate and option-update commands. -/
theorem activate_plugin_spec (s : CharmState) (p : String)
    (opts : List (String × String × String)) :
    PluginFrame (_activate_plugin s p opts).state s
      ∧ (_activate_plugin s p opts).effs.all
          (fun e => isToggleEff e || isOptionUpdateEff e) = true := by
  have hp := perform_toggle_spec s p true
  have hd := updateOptionsLoop_spec p (_perform_plugin_activate_or_deactivate s p true).state opts
  unfold _activate_plugin
  simp only
  cases hsucc : (_perform_plugin_activate_or_deactivate s p true).res.success
  · simp only [hsucc, Bool.false_eq_true, if_false]
    exact ⟨hp.1, all_imp (fun e he => by simp [he]) _ hp.2⟩
  · simp only [hsucc, if_true]
    constructor
    · simpa [hd.1] using hp.1
    · simp only [List.all_append, Bool.and_eq_true]
      refine ⟨all_imp (fun e he => by simp [he]) _ hp.2, ?_⟩
      exact all_imp (fun e he => by simp [he]) _ hd.2

theorem PluginFrame.apacheEnabled {a b : CharmState} (h : PluginFrame a b) :
    a.apacheEnabledConfs = b.apacheEnabledConfs := by
  obtain ⟨ps, rfl, -⟩ := h
  rfl

theorem PluginFrame.apacheAvailable {a b : CharmState} (h : PluginFrame a b) :
    a.apacheConfAvailable = b.apacheConfAvailable := by
  obtain ⟨ps, rfl, -⟩ := h
  rfl

/-! ### Claim C9 -/

/-- Claim C9: when the swift option is empty — in particular when the
`docker-php-swift-proxy` apache configuration is enabled —
`_plugin_swift_reconciliation` leaves the enabled apache configurations and
the conf-available files unchanged, and issues no apache removal or
`a2disconf` command (`_apache_disable_config` is never called: the `elif`
branch of the source only re-runs the read-only enabled-status check). -/
theorem c9_swift_disable_keeps_apache (s : CharmState)
    (hswift : s.cfgSwift = none) :
    (_plugin_swift_reconciliation s).state.apacheEnabledConfs = s.apacheEnabledConfs
      ∧ (_plugin_swift_reconciliation s).state.apacheConfAvailable = s.apacheConfAvailable
      ∧ (_plugin_swift_reconciliation s).effs.all notApacheDisable = true := by
  have hd := deactivate_plugin_spec s "openstack-objectstorage-k8s" ["object_storage"]
  have heffs : (_deactivate_plugin s "openstack-objectstorage-k8s"
      ["object_storage"]).effs.all notApacheDisable = true :=
    all_imp (fun e he => by cases e <;> simp_all [isToggleEff, isOptionDeleteEff, notApacheDisable]) _ hd.2
  unfold _plugin_swift_reconciliation
  rw [hswift]
  cases hsucc : (_deactivate_plugin s "openstack-objectstorage-k8s" ["object_storage"]).res.success <;>
    simp only [hsucc] <;>
    exact ⟨hd.1.apacheEnabled, hd.1.apacheAvailable, heffs⟩

/-- Witness for C9 at a concrete state with the proxy configuration
enabled. -/
theorem c9_swift_disable_keeps_apache_witness :
    (_plugin_swift_reconciliation
        { stBase with apacheEnabledConfs := ["docker-php-swift-proxy.conf"] }).state.apacheEnabledConfs
        = ["docker-php-swift-proxy.conf"]
      ∧ (_plugin_swift_reconciliation
          { stBase with apacheEnabledConfs := ["docker-php-swift-proxy.conf"] }).state.apacheConfAvailable
        = []
      ∧ (_plugin_swift_reconciliation
          { stBase with apacheEnabledConfs := ["docker-php-swift-proxy.conf"] }).effs.all
          notApacheDisable = true :=
  c9_swift_disable_keeps_apache
    { stBase with apacheEnabledConfs := ["docker-php-swift-proxy.conf"] } rfl

/-! ### Claim C1 -/

theorem addonAdd_execOk (s : CharmState) (ty n : String) :
    (addonAdd s ty n).execOk = s.execOk := by
  unfold addonAdd
  split <;> rfl

theorem addonRemove_execOk (s : CharmState) (ty n : String) :
    (addonRemove s ty n).execOk = s.execOk := by
  unfold addonRemove
  split <;> rfl

/-- When every command succeeds, the install loop issues exactly the install
command of each listed name, in order, raises nothing, and preserves the
command oracle. -/
theorem installLoop_ok (ty : String) :
    ∀ (l : List String) (s : CharmState), (∀ e, s.execOk e = true) →
      (installLoop ty s l).effs = l.map (Eff.addonInstall ty)
        ∧ (installLoop ty s l).err = none
        ∧ (installLoop ty s l).state.execOk = s.execOk := by
  intro l
  induction l with
  | nil => intro s h; simp [installLoop]
  | cons n rest ih =>
    intro s h
    have h2 : ∀ e, (addonAdd s ty n).execOk e = true := by
      intro e; rw [addonAdd_execOk]; exact h e
    have ihn := ih (addonAdd s ty n) h2
    simp [installLoop, h (Eff.addonInstall ty n), ihn.1, ihn.2.1,
      ihn.2.2, addonAdd_execOk]

/-- When every command succeeds, the uninstall loop issues exactly the
uninstall command of each listed name, in order, raises nothing, and
preserves the command oracle. -/
theorem uninstallLoop_ok (ty : String) :
    ∀ (l : List String) (s : CharmState), (∀ e, s.execOk e = true) →
      (uninstallLoop ty s l).effs = l.map (Eff.addonUninstall ty)
        ∧ (uninstallLoop ty s l).err = none
        ∧ (uninstallLoop ty s l).state.execOk = s.execOk := by
  intro l
  induction l with
  | nil => intro s h; simp [uninstallLoop]
  | cons n rest ih =>
    intro s h
    have h2 : ∀ e, (addonRemove s ty n).execOk e = true := by
      intro e; rw [addonRemove_execOk]; exact h e
    have ihn := ih (addonRemove s ty n) h2
    simp [uninstallLoop, h (Eff.addonUninstall ty n), ihn.1, ihn.2.1,
      ihn.2.2, addonRemove_execOk]

theorem mem_installsOf (s : CharmState) (ty n : String) :
    n ∈ installsOf s ty
      ↔ n ∈ desiredAddons s ty ∧ n ∉ (_wp_addon_list s ty).map Prod.fst := by
  simp [installsOf, List.mem_filter, currentAddons, List.mem_dedup]

theorem mem_uninstallsOf (s : CharmState) (ty n : String) :
    n ∈ uninstallsOf s ty
      ↔ n ∈ (_wp_addon_list s ty).map Prod.fst ∧ n ∉ desiredAddons s ty := by
  simp [uninstallsOf, List.mem_filter, currentAddons, List.mem_dedup]

theorem installsOf_nodup (s : CharmState) (ty : String) : (installsOf s ty).Nodup :=
  List.Nodup.filter _ (List.nodup_dedup _)

theorem uninstallsOf_nodup (s : CharmState) (ty : String) : (uninstallsOf s ty).Nodup :=
  List.Nodup.filter _ (List.nodup_dedup _)

theorem count_installsOf (s : CharmState) (ty n : String) :
    (installsOf s ty).count n
      = if n ∈ desiredAddons s ty ∧ n ∉ (_wp_addon_list s ty).map Prod.fst
        then 1 else 0 := by
  by_cases h : n ∈ installsOf s ty
  · rw [List.count_eq_one_of_mem (installsOf_nodup s ty) h,
      if_pos ((mem_installsOf s ty n).1 h)]
  · rw [List.count_eq_zero_of_not_mem h,
      if_neg (fun hc => h ((mem_installsOf s ty n).2 hc))]

theorem count_uninstallsOf (s : CharmState) (ty n : String) :
    (uninstallsOf s ty).count n
      = if n ∈ (_wp_addon_list s ty).map Prod.fst ∧ n ∉ desiredAddons s ty
        then 1 else 0 := by
  by_cases h : n ∈ uninstallsOf s ty
  · rw [List.count_eq_one_of_mem (uninstallsOf_nodup s ty) h,
      if_pos ((mem_uninstallsOf s ty n).1 h)]
  · rw [List.count_eq_zero_of_not_mem h,
      if_neg (fun hc => h ((mem_uninstallsOf s ty n).2 hc))]

/-- The effect list of `_addon_reconciliation` when every command succeeds:
the install commands of the desired-minus-installed names followed by the
uninstall commands of the installed-minus-desired names. -/
theorem addon_reconciliation_effs (s : CharmState) (ty : String)
    (hty : ty = "theme" ∨ ty = "plugin") (hexec : ∀ e, s.execOk e = true) :
    (_addon_reconciliation s ty).effs
      = (installsOf s ty).map (Eff.addonInstall ty)
        ++ (uninstallsOf s ty).map (Eff.addonUninstall ty) := by
  have hneq : (ty == "theme" || ty == "plugin") = true := by
    rcases hty with h | h <;> simp [h]
  have hI := installLoop_ok ty (installsOf s ty) s hexec
  have hexec2 : ∀ e, (installLoop ty s (installsOf s ty)).state.execOk e = true := by
    intro e; rw [hI.2.2]; exact hexec e
  have hU := uninstallLoop_ok ty (uninstallsOf s ty) _ hexec2
  unfold _addon_reconciliation
  simp [hneq, Res.seq, hI.1, hI.2.1, hU.1]

/-- Claim C1: for each addon type, `_addon_reconciliation` computes the
desired set as the union of the comma-separated, whitespace-stripped,
non-empty names of the `themes`/`plugins` config option with the built-in
default list, and (when the commands succeed) issues exactly one install
command for each desired-but-not-installed name, exactly one uninstall
command for each installed-but-not-desired name, and no other
install/uninstall commands. -/
theorem c1_addon_reconciliation_diff (s : CharmState) (ty : String)
    (hty : ty = "theme" ∨ ty = "plugin") (hexec : ∀ e, s.execOk e = true)
    (n : String) :
    ((_addon_reconciliation s ty).effs.count (Eff.addonInstall ty n)
        = if n ∈ desiredAddons s ty ∧ n ∉ (_wp_addon_list s ty).map Prod.fst
          then 1 else 0)
      ∧ ((_addon_reconciliation s ty).effs.count (Eff.addonUninstall ty n)
        = if n ∈ (_wp_addon_list s ty).map Prod.fst ∧ n ∉ desiredAddons s ty
          then 1 else 0)
      ∧ (n ∈ desiredAddons s ty
        ↔ n ∈ _addons_in_config (cfgAddonStr s ty) ∨ n ∈ defaultAddons ty)
      ∧ (∀ e ∈ (_addon_reconciliation s ty).effs,
          ∃ m, e = Eff.addonInstall ty m ∨ e = Eff.addonUninstall ty m) := by
  rw [addon_reconciliation_effs s ty hty hexec]
  refine ⟨?_, ?_, ?_, ?_⟩
  · rw [List.count_append]
    have h1 : ((installsOf s ty).map (Eff.addonInstall ty)).count (Eff.addonInstall ty n)
        = (installsOf s ty).count n :=
      List.count_map_of_injective _ _ (fun a b h => by injection h) n
    have h2 : ((uninstallsOf s ty).map (Eff.addonUninstall ty)).count (Eff.addonInstall ty n)
        = 0 := by
      rw [List.count_eq_zero]
      simp
    rw [h1, h2, Nat.add_zero, count_installsOf]
  · rw [List.count_append]
    have h1 : ((installsOf s ty).map (Eff.addonInstall ty)).count (Eff.addonUninstall ty n)
        = 0 := by
      rw [List.count_eq_zero]
      simp
    have h2 : ((uninstallsOf s ty).map (Eff.addonUninstall ty)).count (Eff.addonUninstall ty n)
        = (uninstallsOf s ty).count n :=
      List.count_map_of_injective _ _ (fun a b h => by injection h) n
    rw [h1, h2, Nat.zero_add, count_uninstallsOf]
  · simp [desiredAddons, List.mem_dedup]
  · intro e he
    rcases List.mem_append.1 he with hm | hm <;>
      obtain ⟨m, -, rfl⟩ := List.mem_map.1 hm
    · exact ⟨m, Or.inl rfl⟩
    · exact ⟨m, Or.inr rfl⟩

/-- State used by the C1 witness: one non-default theme configured, one
stray theme installed. -/
def stC1 : CharmState :=
  { stBase with cfgThemes := "newtheme", installedThemes := [("oldtheme", "active")] }

/-- Witness for C1 at a concrete state: `newtheme` (configured, not
installed) is installed exactly once, `oldtheme` (installed, not desired) is
uninstalled exactly once. -/
theorem c1_addon_reconciliation_diff_witness :
    (_addon_reconciliation stC1 "theme").effs.count (Eff.addonInstall "theme" "newtheme") = 1
      ∧ (_addon_reconciliation stC1 "theme").effs.count (Eff.addonUninstall "theme" "oldtheme") = 1 := by
  refine ⟨?_, ?_⟩
  · rw [(c1_addon_reconciliation_diff stC1 "theme" (Or.inl rfl) (fun e => rfl) "newtheme").1]
    decide
  · rw [(c1_addon_reconciliation_diff stC1 "theme" (Or.inl rfl) (fun e => rfl) "oldtheme").2.1]
    decide

/-! ### Claim C7 -/

/-- Effects the core reconciliation step can issue. -/
def isCoreEff : Eff → Bool
  | .stopService => true
  | .startService _ => true
  | .pushWpConfig _ => true
  | .wpInstallCmd => true
  | .dbConnCheck => true
  | _ => false

/-- Effects the theme reconciliation step can issue. -/
def isThemeStageEff : Eff → Bool
  | .addonInstall ty _ => ty == "theme"
  | .addonUninstall ty _ => ty == "theme"
  | _ => false

/-- Effects the plugin reconciliation step can issue (the swift
reconciliation may restart the server, so service control and database
probes are included). -/
def isPluginStageEff : Eff → Bool
  | .addonInstall ty _ => ty == "plugin"
  | .addonUninstall ty _ => ty == "plugin"
  | .pushWpConfig _ => false
  | .removeWpConfigFile _ => false
  | _ => true

/-- Effects `_start_server` can issue. -/
def isStartServerEff : Eff → Bool
  | .dbConnCheck => true
  | .wpInstallCmd => true
  | .startService _ => true
  | _ => false

/-- Effects issued by addon loops of a given addon type. -/
def isAddonEffOf (ty : String) : Eff → Bool
  | .addonInstall t _ => t == ty
  | .addonUninstall t _ => t == ty
  | _ => false

theorem toggleOrDelete_isPluginStage (e : Eff)
    (h : (isToggleEff e || isOptionDeleteEff e) = true) : isPluginStageEff e = true := by
  cases e <;> simp_all [isToggleEff, isOptionDeleteEff, isPluginStageEff]

theorem toggleOrUpdate_isPluginStage (e : Eff)
    (h : (isToggleEff e || isOptionUpdateEff e) = true) : isPluginStageEff e = true := by
  cases e <;> simp_all [isToggleEff, isOptionUpdateEff, isPluginStageEff]

theorem seq_all {p : Eff → Bool} (r : Res) (f : CharmState → Res)
    (h1 : r.effs.all p = true) (h2 : ∀ s', (f s').effs.all p = true) :
    (r.seq f).effs.all p = true := by
  unfold Res.seq
  cases herr : r.err <;> simp [herr, List.all_append, Bool.and_eq_true, h1, h2]

theorem stop_server_effs (s : CharmState) :
    (_stop_server s).2.all (fun e => e == Eff.stopService) = true := by
  unfold _stop_server
  split <;> simp

theorem start_server_effs (s : CharmState) :
    (_start_server s).effs.all isStartServerEff = true := by
  have hrep : ∀ (k : Nat), (List.replicate k Eff.dbConnCheck).all isStartServerEff = true := by
    intro k
    rw [List.all_eq_true]
    intro e he
    rw [List.eq_of_mem_replicate he]
    rfl
  unfold _start_server startIfStopped
  simp only [apply_ite Res.effs]
  split_ifs <;> simp_all [List.all_append, isStartServerEff, hrep]

theorem core_effs (s : CharmState) :
    (_core_reconciliation s).effs.all isCoreEff = true := by
  have hstop : (_stop_server s).2.all isCoreEff = true :=
    all_imp (fun e he => by cases e <;> simp_all [isCoreEff]) _ (stop_server_effs s)
  have hstart : ∀ s', (_start_server s').effs.all isCoreEff = true := fun s' =>
    all_imp (fun e he => by cases e <;> simp_all [isStartServerEff, isCoreEff]) _
      (start_server_effs s')
  unfold _core_reconciliation
  by_cases h1 : (!_replica_consensus_reached s) = true
  · simp only [h1, if_true]
    simpa using hstop
  · rw [if_neg h1]
    by_cases h2 : (!dbConfigComplete s && !dbRelationComplete s) = true
    · simp only [h2, if_true]
      simpa using hstop
    · rw [if_neg h2]
      cases hg : _gen_wp_config s with
      | none => simp
      | some w =>
        simp only
        by_cases h3 : (some w == s.currentWpConfig) = true
        · simp only [h3, if_true]
          by_cases h4 : s.currentWpConfig.isSome = true <;>
            simp [h4, hstart s, List.all_append]
        · rw [if_neg h3]
          simp [_push_wp_config, List.all_append, Bool.and_eq_true, isCoreEff,
            hstop, hstart]

theorem installLoop_effs_kind (ty : String) :
    ∀ (l : List String) (s : CharmState),
      (installLoop ty s l).effs.all (isAddonEffOf ty) = true := by
  intro l
  induction l with
  | nil => intro s; simp [installLoop]
  | cons n rest ih =>
    intro s
    unfold installLoop
    simp only [apply_ite Res.effs]
    split <;> simp [isAddonEffOf, ih]

theorem uninstallLoop_effs_kind (ty : String) :
    ∀ (l : List String) (s : CharmState),
      (uninstallLoop ty s l).effs.all (isAddonEffOf ty) = true := by
  intro l
  induction l with
  | nil => intro s; simp [uninstallLoop]
  | cons n rest ih =>
    intro s
    unfold uninstallLoop
    simp only [apply_ite Res.effs]
    split <;> simp [isAddonEffOf, ih]

theorem addon_reconciliation_effs_kind (s : CharmState) (ty : String) :
    (_addon_reconciliation s ty).effs.all (isAddonEffOf ty) = true := by
  unfold _addon_reconciliation
  split
  · simp
  · exact seq_all _ _ (installLoop_effs_kind ty _ s)
      (fun s' => uninstallLoop_effs_kind ty _ s')

theorem theme_stage_effs (s : CharmState) :
    (_theme_reconciliation s).effs.all isThemeStageEff = true :=
  all_imp (fun e he => by cases e <;> simp_all [isAddonEffOf, isThemeStageEff]) _
    (addon_reconciliation_effs_kind s "theme")

theorem apache_enable_effs (s : CharmState) (cn conf : String) :
    (_apache_enable_config s cn conf).effs.all isPluginStageEff = true := by
  have hstop : (_stop_server s).2.all isPluginStageEff = true :=
    all_imp (fun e he => by cases e <;> simp_all [isPluginStageEff]) _ (stop_server_effs s)
  have hstart : ∀ s', (_start_server s').effs.all isPluginStageEff = true := fun s' =>
    all_imp (fun e he => by cases e <;> simp_all [isStartServerEff, isPluginStageEff]) _
      (start_server_effs s')
  unfold _apache_enable_config
  simp [List.all_append, Bool.and_eq_true, hstop, hstart, isPluginStageEff]

theorem swift_effs (s : CharmState) :
    (_plugin_swift_reconciliation s).effs.all isPluginStageEff = true := by
  unfold _plugin_swift_reconciliation
  cases hsw : s.cfgSwift with
  | none =>
    have hd := (deactivate_plugin_spec s "openstack-objectstorage-k8s" ["object_storage"]).2
    have hd2 : (_deactivate_plugin s "openstack-objectstorage-k8s"
        ["object_storage"]).effs.all isPluginStageEff = true :=
      all_imp toggleOrDelete_isPluginStage _ hd
    simp only [apply_ite Res.effs]
    split_ifs <;> simpa using hd2
  | some cfgv =>
    cases hmiss : swiftConfigKeys.find? (fun k => (cfgv.lookup k).isNone) with
    | some k => simp [hmiss]
    | none =>
      have ha := (activate_plugin_spec s "openstack-objectstorage-k8s"
        [("object_storage", jsonDumps cfgv, "json")]).2
      have ha2 : (_activate_plugin s "openstack-objectstorage-k8s"
          [("object_storage", jsonDumps cfgv, "json")]).effs.all isPluginStageEff = true :=
        all_imp toggleOrUpdate_isPluginStage _ ha
      simp only [hmiss, apply_ite Res.effs]
      split_ifs <;>
        simp_all [List.all_append, Bool.and_eq_true, apache_enable_effs]

theorem plugin_stage_effs (s : CharmState) :
    (_plugin_reconciliation s).effs.all isPluginStageEff = true := by
  have haddon : (_addon_reconciliation s "plugin").effs.all isPluginStageEff = true :=
    all_imp (fun e he => by cases e <;> simp_all [isAddonEffOf, isPluginStageEff]) _
      (addon_reconciliation_effs_kind s "plugin")
  have hak : ∀ s', (_plugin_akismet_reconciliation s').effs.all isPluginStageEff = true := by
    intro s'
    have hde : (_deactivate_plugin s' "akismet"
        ["akismet_strictness", "akismet_show_user_comments_approved",
         "wordpress_api_key"]).effs.all isPluginStageEff = true :=
      all_imp toggleOrDelete_isPluginStage _
        (deactivate_plugin_spec s' "akismet"
          ["akismet_strictness", "akismet_show_user_comments_approved", "wordpress_api_key"]).2
    have hac : (_activate_plugin s' "akismet"
        [("akismet_strictness", "0", "plaintext"),
         ("akismet_show_user_comments_approved", "0", "plaintext"),
         ("wordpress_api_key", pyStrip s'.cfgAkismetKey, "plaintext")]).effs.all
          isPluginStageEff = true :=
      all_imp toggleOrUpdate_isPluginStage _
        (activate_plugin_spec s' "akismet"
          [("akismet_strictness", "0", "plaintext"),
           ("akismet_show_user_comments_approved", "0", "plaintext"),
           ("wordpress_api_key", pyStrip s'.cfgAkismetKey, "plaintext")]).2
    unfold _plugin_akismet_reconciliation
    simp only [apply_ite Res.effs, apply_ite PRes.effs]
    split_ifs <;> first | simpa using hde | simpa using hac
  have hop : ∀ s', (_plugin_openid_reconciliation s').effs.all isPluginStageEff = true := by
    intro s'
    have hde : (_deactivate_plugin s' "openid"
        ["openid_required_for_registration", "openid_teams_trust_list"]).effs.all
          isPluginStageEff = true :=
      all_imp toggleOrDelete_isPluginStage _
        (deactivate_plugin_spec s' "openid"
          ["openid_required_for_registration", "openid_teams_trust_list"]).2
    unfold _plugin_openid_reconciliation
    by_cases hk : (pyStrip s'.cfgOpenidTeamMap == "") = true
    · simp only [hk, if_true, apply_ite Res.effs]
      split_ifs <;> simpa using hde
    · rw [if_neg hk]
      cases he : _encode_openid_team_map (pyStrip s'.cfgOpenidTeamMap) with
      | none => simp
      | some enc =>
        have hac : (_activate_plugin s' "openid"
            [("openid_required_for_registration", "1", "plaintext"),
             ("openid_teams_trust_list", enc, "plaintext")]).effs.all
              isPluginStageEff = true :=
          all_imp toggleOrUpdate_isPluginStage _
            (activate_plugin_spec s' "openid"
              [("openid_required_for_registration", "1", "plaintext"),
               ("openid_teams_trust_list", enc, "plaintext")]).2
        simp only [apply_ite Res.effs]
        split_ifs <;> simpa using hac
  unfold _plugin_reconciliation
  refine seq_all _ _ haddon ?_
  intro s'
  split_ifs
  · refine seq_all _ _ (hak s') ?_
    intro s''
    refine seq_all _ _ (hop s'') ?_
    intro s3
    exact swift_effs s3
  · simp

theorem seq_effs_cases (r : Res) (f : CharmState → Res) :
    (r.seq f).effs = r.effs ∨ (r.seq f).effs = r.effs ++ (f r.state).effs := by
  unfold Res.seq
  cases herr : r.err <;> simp [herr]

/-- Claim C7: within one `_reconciliation` invocation the effect trace
decomposes into the core-step effects, then the theme-step effects, then the
plugin-step effects, in this order; and within `_addon_reconciliation` all
install commands are issued before any uninstall command. -/
theorem c7_sequential_order :
    (∀ s : CharmState, ∃ t1 t2 t3,
      (_reconciliation s).effs = t1 ++ t2 ++ t3
        ∧ t1.all isCoreEff = true
        ∧ t2.all isThemeStageEff = true
        ∧ t3.all isPluginStageEff = true)
      ∧ (∀ (s : CharmState) (ty : String), ∃ (l1 l2 : List String),
          (_addon_reconciliation s ty).effs
            = l1.map (Eff.addonInstall ty) ++ l2.map (Eff.addonUninstall ty)) := by
  constructor
  · intro s
    by_cases hc : s.canConnect = true
    · have hsteps : ∃ t1 t2 t3, (reconciliationSteps s).effs = t1 ++ t2 ++ t3
          ∧ t1.all isCoreEff = true ∧ t2.all isThemeStageEff = true
          ∧ t3.all isPluginStageEff = true := by
        unfold reconciliationSteps
        rcases seq_effs_cases (_core_reconciliation s)
            (fun s1 => (_theme_reconciliation s1).seq
              (fun s2 => _plugin_reconciliation s2)) with h | h
        · exact ⟨(_core_reconciliation s).effs, [], [], by simp [h], core_effs s, rfl, rfl⟩
        · rcases seq_effs_cases (_theme_reconciliation (_core_reconciliation s).state)
              (fun s2 => _plugin_reconciliation s2) with h2 | h2
          · refine ⟨(_core_reconciliation s).effs,
              (_theme_reconciliation (_core_reconciliation s).state).effs, [],
              ?_, core_effs s, theme_stage_effs _, rfl⟩
            rw [h, h2]
            simp
          · refine ⟨(_core_reconciliation s).effs,
              (_theme_reconciliation (_core_reconciliation s).state).effs,
              (_plugin_reconciliation
                (_theme_reconciliation (_core_reconciliation s).state).state).effs,
              ?_, core_effs s, theme_stage_effs _, plugin_stage_effs _⟩
            rw [h, h2]
            simp
      obtain ⟨t1, t2, t3, heq, ha, hb, hcc⟩ := hsteps
      refine ⟨t1, t2, t3, ?_, ha, hb, hcc⟩
      unfold _reconciliation
      rw [hc]
      simp only [Bool.not_true, Bool.false_eq_true, if_false]
      cases herr : (reconciliationSteps s).err with
      | none => simpa using heq
      | some e =>
        cases he : e.isStatusExc <;> simp [herr, he] <;> simpa using heq
    · simp only [Bool.not_eq_true] at hc
      rw [reconciliation_no_connect s hc]
      exact ⟨[], [], [], rfl, rfl, rfl, rfl⟩
  · intro s ty
    have hI : ∀ (l : List String) (s' : CharmState), ∃ l' : List String,
        (installLoop ty s' l).effs = l'.map (Eff.addonInstall ty) := by
      intro l
      induction l with
      | nil => intro s'; exact ⟨[], by simp [installLoop]⟩
      | cons n rest ih =>
        intro s'
        unfold installLoop
        simp only [apply_ite Res.effs]
        split
        · obtain ⟨l', hl'⟩ := ih (addonAdd s' ty n)
          exact ⟨n :: l', by simp [hl']⟩
        · exact ⟨[n], by simp⟩
    have hU : ∀ (l : List String) (s' : CharmState), ∃ l' : List String,
        (uninstallLoop ty s' l).effs = l'.map (Eff.addonUninstall ty) := by
      intro l
      induction l with
      | nil => intro s'; exact ⟨[], by simp [uninstallLoop]⟩
      | cons n rest ih =>
        intro s'
        unfold uninstallLoop
        simp only [apply_ite Res.effs]
        split
        · obtain ⟨l', hl'⟩ := ih (addonRemove s' ty n)
          exact ⟨n :: l', by simp [hl']⟩
        · exact ⟨[n], by simp⟩
    unfold _addon_reconciliation
    split
    · exact ⟨[], [], rfl⟩
    · obtain ⟨l1, hl1⟩ := hI (installsOf s ty) s
      rcases seq_effs_cases (installLoop ty s (installsOf s ty))
          (fun s2 => uninstallLoop ty s2 (uninstallsOf s ty)) with h | h
      · exact ⟨l1, [], by rw [h, hl1]; simp⟩
      · obtain ⟨l2, hl2⟩ := hU (uninstallsOf s ty) (installLoop ty s (installsOf s ty)).state
        exact ⟨l1, l2, by rw [h, hl1, hl2]⟩

/-! ### Claim C6 -/

theorem stop_server_not_running (s : CharmState) (h : s.serviceExists = true) :
    (_stop_server s).1.serviceRunning = false := by
  unfold _stop_server
  cases hr : s.serviceRunning <;> simp [h, hr]

/-- Claim C6: `_core_reconciliation` is gated on peer consensus and complete
database credentials: without consensus it stops the server and raises the
waiting-status exception; with consensus but with neither the config nor the
relation providing all four database settings it stops the server and raises
the blocked-status exception; a wp-config.php push or a service start can
only happen when both gates pass, and when both gates pass and the generated
wp-config.php differs from the current one it is pushed. -/
theorem c6_core_gates (s : CharmState) :
    (_replica_consensus_reached s = false →
        _core_reconciliation s
          = ⟨(_stop_server s).1, (_stop_server s).2,
             some (WPErr.waiting "Waiting for unit consensus")⟩
          ∧ (s.serviceExists = true → (_core_reconciliation s).state.serviceRunning = false))
      ∧ (_replica_consensus_reached s = true → dbConfigComplete s = false →
          dbRelationComplete s = false →
          _core_reconciliation s
            = ⟨(_stop_server s).1, (_stop_server s).2,
               some (WPErr.blocked "Waiting for db relation/config")⟩
            ∧ (s.serviceExists = true → (_core_reconciliation s).state.serviceRunning = false))
      ∧ (∀ c, Eff.pushWpConfig c ∈ (_core_reconciliation s).effs →
          _replica_consensus_reached s = true
            ∧ (dbConfigComplete s = true ∨ dbRelationComplete s = true)
            ∧ _gen_wp_config s = some c)
      ∧ (∀ b, Eff.startService b ∈ (_core_reconciliation s).effs →
          _replica_consensus_reached s = true
            ∧ (dbConfigComplete s = true ∨ dbRelationComplete s = true))
      ∧ (_replica_consensus_reached s = true →
          (dbConfigComplete s = true ∨ dbRelationComplete s = true) →
          ∀ c, _gen_wp_config s = some c → s.currentWpConfig ≠ some c →
            Eff.pushWpConfig c ∈ (_core_reconciliation s).effs) := by
  have hstopmem : ∀ e ∈ (_stop_server s).2, e = Eff.stopService := by
    intro e he
    have := stop_server_effs s
    rw [List.all_eq_true] at this
    simpa using this e he
  by_cases hcons : _replica_consensus_reached s = true
  · have hconsf : ¬(_replica_consensus_reached s = false) := by simp [hcons]
    by_cases hgate : (!dbConfigComplete s && !dbRelationComplete s) = true
    · have hcf : dbConfigComplete s = false := by
        rcases Bool.and_eq_true_iff.1 hgate with ⟨h1, -⟩
        simpa using h1
      have hrf : dbRelationComplete s = false := by
        rcases Bool.and_eq_true_iff.1 hgate with ⟨-, h2⟩
        simpa using h2
      have hcore : _core_reconciliation s
          = ⟨(_stop_server s).1, (_stop_server s).2,
             some (WPErr.blocked "Waiting for db relation/config")⟩ := by
        unfold _core_reconciliation
        simp [hcons, hgate]
      refine ⟨fun h => absurd h hconsf, ?_, ?_, ?_, ?_⟩
      · intro _ _ _
        exact ⟨hcore, fun hex => by rw [hcore]; exact stop_server_not_running s hex⟩
      · intro c hc
        rw [hcore] at hc
        have := hstopmem _ hc
        simp at this
      · intro b hb
        rw [hcore] at hb
        have := hstopmem _ hb
        simp at this
      · intro _ hor
        rcases hor with h | h
        · rw [h] at hcf; cases hcf
        · rw [h] at hrf; cases hrf
    · have hgates : dbConfigComplete s = true ∨ dbRelationComplete s = true := by
        cases hc1 : dbConfigComplete s
        · cases hc2 : dbRelationComplete s
          · exact absurd (by simp [hc1, hc2]) hgate
          · exact Or.inr rfl
        · exact Or.inl rfl
      have hstartnopush : ∀ (s' : CharmState) (c : String),
          Eff.pushWpConfig c ∉ (_start_server s').effs := by
        intro s' c hmem
        have hall := start_server_effs s'
        rw [List.all_eq_true] at hall
        have h2 := hall _ hmem
        simp [isStartServerEff] at h2
      refine ⟨fun h => absurd h hconsf, ?_, ?_, ?_, ?_⟩
      · intro _ hc1 hc2
        exact absurd (by simp [hc1, hc2]) hgate
      · intro c hc
        refine ⟨hcons, hgates, ?_⟩
        unfold _core_reconciliation at hc
        simp only [hcons, Bool.not_true, Bool.false_eq_true, if_false] at hc
        rw [if_neg hgate] at hc
        cases hg : _gen_wp_config s with
        | none =>
          rw [hg] at hc
          simp at hc
        | some w =>
          rw [hg] at hc
          dsimp only at hc
          by_cases hbeq : (some w == s.currentWpConfig) = true
          · simp only [hbeq, if_true] at hc
            by_cases hsome : s.currentWpConfig.isSome = true
            · simp only [hsome, if_true] at hc
              simp only [List.nil_append] at hc
              exact absurd hc (hstartnopush _ c)
            · simp only [hsome, Bool.false_eq_true, if_false] at hc
              simp at hc
          · rw [if_neg hbeq] at hc
            simp only [_push_wp_config] at hc
            by_cases hsome : (Option.some w).isSome = true
            · simp only [hsome, if_true] at hc
              rcases List.mem_append.1 hc with hin | hin
              · rcases List.mem_append.1 hin with hin2 | hin2
                · have := hstopmem _ hin2
                  simp at this
                · simp at hin2
                  rw [hin2]
              · exact absurd hin (hstartnopush _ c)
            · simp at hsome
      · intro b hb
        exact ⟨hcons, hgates⟩
      · intro _ _ c hgen hneq
        unfold _core_reconciliation
        simp only [hcons, Bool.not_true, Bool.false_eq_true, if_false]
        rw [if_neg hgate]
        rw [hgen]
        dsimp only
        have hbeq : (some c == s.currentWpConfig) = false :=
          beq_eq_false_iff_ne.2 (fun h => hneq h.symm)
        have hne2 : ¬(some c = s.currentWpConfig) := fun h => hneq h.symm
        simp only [hbeq, Bool.false_eq_true, hne2, if_false]
        simp [_push_wp_config]
  · have hconsb : (!_replica_consensus_reached s) = true := by
      simp [Bool.not_eq_true] at hcons ⊢
      exact hcons
    have hcore : _core_reconciliation s
        = ⟨(_stop_server s).1, (_stop_server s).2,
           some (WPErr.waiting "Waiting for unit consensus")⟩ := by
      unfold _core_reconciliation
      simp [hconsb]
    refine ⟨?_, ?_, ?_, ?_, ?_⟩
    · intro _
      exact ⟨hcore, fun hex => by rw [hcore]; exact stop_server_not_running s hex⟩
    · intro h
      rw [h] at hcons
      exact absurd rfl hcons
    · intro c hc
      rw [hcore] at hc
      have := hstopmem _ hc
      simp at this
    · intro b hb
      rw [hcore] at hb
      have := hstopmem _ hb
      simp at this
    · intro h
      rw [h] at hcons
      exact absurd rfl hcons

/-- Witness for C6 at two concrete states: one without peer consensus (the
peer relation is absent), one with consensus but incomplete database info
(`db_host` config empty, no relation data). -/
theorem c6_core_gates_witness :
    ((_core_reconciliation { stBase with replicaData := none }).err
          = some (WPErr.waiting "Waiting for unit consensus")
        ∧ (_core_reconciliation { stBase with replicaData := none }).state.serviceRunning
          = false)
      ∧ ((_core_reconciliation { stBase with cfgDbHost := "" }).err
          = some (WPErr.blocked "Waiting for db relation/config")
        ∧ (_core_reconciliation { stBase with cfgDbHost := "" }).state.serviceRunning
          = false) := by
  constructor
  · have h := (c6_core_gates { stBase with replicaData := none }).1 rfl
    exact ⟨by rw [h.1], h.2 rfl⟩
  · have h := (c6_core_gates { stBase with cfgDbHost := "" }).2.1 rfl rfl rfl
    exact ⟨by rw [h.1], h.2 rfl⟩

/-! ### Claim C10 -/

theorem dbTries_first_true (s : CharmState) (i fuel : Nat) (h : s.dbCheck i = true) :
    dbTries s i (fuel + 1) = (1, true) := by
  unfold dbTries
  simp [h]

/-- When wp-config.php exists, `_start_server` never issues a service start
recorded with an absent wp-config.php, and it does not modify
wp-config.php. -/
theorem start_server_no_bad_start (s : CharmState) (h : s.currentWpConfig.isSome = true) :
    Eff.startService false ∉ (_start_server s).effs
      ∧ (_start_server s).state.currentWpConfig = s.currentWpConfig := by
  constructor
  · intro hmem
    unfold _start_server startIfStopped _init_pebble_layer at hmem
    simp only [apply_ite Res.effs] at hmem
    split_ifs at hmem <;>
      simp_all [List.mem_append, List.mem_replicate, h]
  · unfold _start_server startIfStopped _init_pebble_layer
    simp only [apply_ite Res.state]
    split_ifs <;> rfl

theorem installLoop_state_current (ty : String) :
    ∀ (l : List String) (s : CharmState),
      (installLoop ty s l).state.currentWpConfig = s.currentWpConfig := by
  intro l
  induction l with
  | nil => intro s; rfl
  | cons n rest ih =>
    intro s
    unfold installLoop
    simp only [apply_ite Res.state]
    split
    · rw [ih (addonAdd s ty n)]
      unfold addonAdd
      split <;> rfl
    · rfl

theorem uninstallLoop_state_current (ty : String) :
    ∀ (l : List String) (s : CharmState),
      (uninstallLoop ty s l).state.currentWpConfig = s.currentWpConfig := by
  intro l
  induction l with
  | nil => intro s; rfl
  | cons n rest ih =>
    intro s
    unfold uninstallLoop
    simp only [apply_ite Res.state]
    split
    · rw [ih (addonRemove s ty n)]
      unfold addonRemove
      split <;> rfl
    · rfl

theorem addon_state_current (s : CharmState) (ty : String) :
    (_addon_reconciliation s ty).state.currentWpConfig = s.currentWpConfig := by
  unfold _addon_reconciliation
  split
  · rfl
  · unfold Res.seq
    cases herr : (installLoop ty s (installsOf s ty)).err <;> simp only [herr]
    · rw [uninstallLoop_state_current ty (uninstallsOf s ty), installLoop_state_current]
    · rw [installLoop_state_current]

theorem addon_no_start (s : CharmState) (ty : String) (b : Bool) :
    Eff.startService b ∉ (_addon_reconciliation s ty).effs := by
  intro hmem
  have hall := addon_reconciliation_effs_kind s ty
  rw [List.all_eq_true] at hall
  have := hall _ hmem
  simp [isAddonEffOf] at this

theorem core_no_bad_start (s : CharmState) :
    Eff.startService false ∉ (_core_reconciliation s).effs
      ∧ ((_core_reconciliation s).err = none →
          (_core_reconciliation s).state.currentWpConfig.isSome = true) := by
  have hstopmem : ∀ e ∈ (_stop_server s).2, e = Eff.stopService := by
    intro e he
    have hall := stop_server_effs s
    rw [List.all_eq_true] at hall
    simpa using hall e he
  by_cases hcons : (!_replica_consensus_reached s) = true
  · have hcore : _core_reconciliation s
        = ⟨(_stop_server s).1, (_stop_server s).2,
           some (WPErr.waiting "Waiting for unit consensus")⟩ := by
      unfold _core_reconciliation
      simp [hcons]
    rw [hcore]
    refine ⟨fun hmem => ?_, fun h => by cases h⟩
    have := hstopmem _ hmem
    cases this
  · have hconsT : _replica_consensus_reached s = true := by
      simpa using hcons
    by_cases hgate : (!dbConfigComplete s && !dbRelationComplete s) = true
    · have hcore : _core_reconciliation s
          = ⟨(_stop_server s).1, (_stop_server s).2,
             some (WPErr.blocked "Waiting for db relation/config")⟩ := by
        unfold _core_reconciliation
        simp [hconsT, hgate]
      rw [hcore]
      refine ⟨fun hmem => ?_, fun h => by cases h⟩
      have := hstopmem _ hmem
      cases this
    · cases hg : _gen_wp_config s with
      | none =>
        have hcore : _core_reconciliation s
            = ⟨s, [], some (WPErr.fatal "ValueError generating wp-config.php")⟩ := by
          unfold _core_reconciliation
          simp [hconsT, hgate, hg]
        rw [hcore]
        exact ⟨by simp, fun h => by cases h⟩
      | some w =>
        by_cases hbeq : (some w == s.currentWpConfig) = true
        · have hcur : s.currentWpConfig = some w := (eq_of_beq hbeq).symm
          have hsome : s.currentWpConfig.isSome = true := by rw [hcur]; rfl
          have hss := start_server_no_bad_start s hsome
          have hcore : _core_reconciliation s
              = ⟨(_start_server s).state, [] ++ (_start_server s).effs,
                 (_start_server s).err⟩ := by
            unfold _core_reconciliation
            simp [hconsT, hgate, hg, hbeq, hsome]
          rw [hcore]
          constructor
          · intro hmem
            rw [List.nil_append] at hmem
            exact hss.1 hmem
          · intro _
            rw [hss.2, hcur]
            rfl
        · have hs1cur : (_push_wp_config (_stop_server s).1 w).1.currentWpConfig
              = some w := rfl
          have hsome1 : (_push_wp_config (_stop_server s).1 w).1.currentWpConfig.isSome
              = true := by rw [hs1cur]; rfl
          have hss := start_server_no_bad_start _ hsome1
          have hcore : _core_reconciliation s
              = ⟨(_start_server (_push_wp_config (_stop_server s).1 w).1).state,
                 ((_stop_server s).2 ++ (_push_wp_config (_stop_server s).1 w).2)
                   ++ (_start_server (_push_wp_config (_stop_server s).1 w).1).effs,
                 (_start_server (_push_wp_config (_stop_server s).1 w).1).err⟩ := by
            unfold _core_reconciliation
            simp [hconsT, hgate, hg, hbeq, hsome1]
          rw [hcore]
          constructor
          · intro hmem
            rcases List.mem_append.1 hmem with h1 | h1
            · rcases List.mem_append.1 h1 with h2 | h2
              · have := hstopmem _ h2
                cases this
              · simp [_push_wp_config] at h2
            · exact hss.1 h1
          · intro _
            rw [hss.2, hs1cur]
            rfl

theorem PluginFrame.currentWpConfig {a b : CharmState} (h : PluginFrame a b) :
    a.currentWpConfig = b.currentWpConfig := by
  obtain ⟨ps, rfl, -⟩ := h
  rfl

theorem stop_server_current (s : CharmState) :
    (_stop_server s).1.currentWpConfig = s.currentWpConfig := by
  unfold _stop_server
  split <;> rfl

theorem deactivate_no_start (s : CharmState) (p : String) (opts : List String) (b : Bool) :
    Eff.startService b ∉ (_deactivate_plugin s p opts).effs := by
  intro hmem
  have hall := (deactivate_plugin_spec s p opts).2
  rw [List.all_eq_true] at hall
  have := hall _ hmem
  simp [isToggleEff, isOptionDeleteEff] at this

theorem activate_no_start (s : CharmState) (p : String)
    (opts : List (String × String × String)) (b : Bool) :
    Eff.startService b ∉ (_activate_plugin s p opts).effs := by
  intro hmem
  have hall := (activate_plugin_spec s p opts).2
  rw [List.all_eq_true] at hall
  have := hall _ hmem
  simp [isToggleEff, isOptionUpdateEff] at this

theorem akismet_no_start_current (s : CharmState) :
    (∀ b, Eff.startService b ∉ (_plugin_akismet_reconciliation s).effs)
      ∧ (_plugin_akismet_reconciliation s).state.currentWpConfig = s.currentWpConfig := by
  unfold _plugin_akismet_reconciliation
  simp only [apply_ite Res.effs, apply_ite Res.state, apply_ite PRes.effs,
    apply_ite PRes.state]
  constructor
  · intro b hmem
    split_ifs at hmem <;>
      first
        | exact deactivate_no_start _ _ _ b hmem
        | exact activate_no_start _ _ _ b hmem
  · split_ifs <;>
      first
        | exact (deactivate_plugin_spec _ _ _).1.currentWpConfig
        | exact (activate_plugin_spec _ _ _).1.currentWpConfig

theorem openid_no_start_current (s : CharmState) :
    (∀ b, Eff.startService b ∉ (_plugin_openid_reconciliation s).effs)
      ∧ (_plugin_openid_reconciliation s).state.currentWpConfig = s.currentWpConfig := by
  unfold _plugin_openid_reconciliation
  by_cases hk : (pyStrip s.cfgOpenidTeamMap == "") = true
  · simp only [hk, if_true, apply_ite Res.effs, apply_ite Res.state]
    constructor
    · intro b hmem
      split_ifs at hmem <;> exact deactivate_no_start _ _ _ b hmem
    · split_ifs <;> exact (deactivate_plugin_spec _ _ _).1.currentWpConfig
  · rw [if_neg hk]
    cases he : _encode_openid_team_map (pyStrip s.cfgOpenidTeamMap) with
    | none => exact ⟨fun b hmem => by simp at hmem, rfl⟩
    | some enc =>
      simp only [apply_ite Res.effs, apply_ite Res.state]
      constructor
      · intro b hmem
        split_ifs at hmem <;> exact activate_no_start _ _ _ b hmem
      · split_ifs <;> exact (activate_plugin_spec _ _ _).1.currentWpConfig

theorem apache_enable_no_bad_start (s : CharmState) (cn conf : String)
    (h : s.currentWpConfig.isSome = true) :
    Eff.startService false ∉ (_apache_enable_config s cn conf).effs
      ∧ (_apache_enable_config s cn conf).state.currentWpConfig = s.currentWpConfig := by
  have hstopmem : ∀ e ∈ (_stop_server s).2, e = Eff.stopService := by
    intro e he
    have hall := stop_server_effs s
    rw [List.all_eq_true] at hall
    simpa using hall e he
  have hs2cur : (apacheLink (apacheSetConf (_stop_server s).1 cn conf) cn).currentWpConfig
      = s.currentWpConfig := by
    rw [show (apacheLink (apacheSetConf (_stop_server s).1 cn conf) cn).currentWpConfig
      = (_stop_server s).1.currentWpConfig from rfl, stop_server_current]
  have hsome2 : (apacheLink (apacheSetConf (_stop_server s).1 cn conf) cn).currentWpConfig.isSome
      = true := by
    rw [hs2cur]
    exact h
  unfold _apache_enable_config
  simp only
  constructor
  · intro hmem
    rcases List.mem_append.1 hmem with h1 | h1
    · rcases List.mem_append.1 h1 with h2 | h2
      · have := hstopmem _ h2
        cases this
      · simp at h2
    · exact (start_server_no_bad_start _ hsome2).1 h1
  · rw [(start_server_no_bad_start _ hsome2).2, hs2cur]

set_option maxHeartbeats 1600000 in
theorem swift_no_bad_start (s : CharmState) (h : s.currentWpConfig.isSome = true) :
    Eff.startService false ∉ (_plugin_swift_reconciliation s).effs
      ∧ (_plugin_swift_reconciliation s).state.currentWpConfig = s.currentWpConfig := by
  unfold _plugin_swift_reconciliation
  cases hsw : s.cfgSwift with
  | none =>
    dsimp only
    simp only [apply_ite Res.effs, apply_ite Res.state]
    constructor
    · intro hmem
      split_ifs at hmem <;> exact deactivate_no_start _ _ _ false hmem
    · split_ifs <;> exact (deactivate_plugin_spec _ _ _).1.currentWpConfig
  | some cfgv =>
    dsimp only
    cases hmiss : swiftConfigKeys.find? (fun k => (cfgv.lookup k).isNone) with
    | some k => exact ⟨fun hmem => by simp [hmiss] at hmem, by simp [hmiss]⟩
    | none =>
      have hacur : (_activate_plugin s "openstack-objectstorage-k8s"
          [("object_storage", jsonDumps cfgv, "json")]).state.currentWpConfig
          = s.currentWpConfig :=
        (activate_plugin_spec _ _ _).1.currentWpConfig
      have hasome : (_activate_plugin s "openstack-objectstorage-k8s"
          [("object_storage", jsonDumps cfgv, "json")]).state.currentWpConfig.isSome
          = true := by rw [hacur]; exact h
      simp only [hmiss, apply_ite Res.effs, apply_ite Res.state]
      constructor
      · intro hmem
        split_ifs at hmem
        · exact activate_no_start _ _ _ false hmem
        · rcases List.mem_append.1 hmem with h1 | h1
          · exact activate_no_start _ _ _ false h1
          · exact (apache_enable_no_bad_start _ _ _ hasome).1 h1
        · exact activate_no_start _ _ _ false hmem
      · split_ifs
        · exact hacur
        · rw [(apache_enable_no_bad_start _ _ _ hasome).2, hacur]
        · exact hacur

theorem seq_effs_mem {e : Eff} (r : Res) (f : CharmState → Res)
    (hmem : e ∈ (r.seq f).effs) :
    e ∈ r.effs ∨ (r.err = none ∧ e ∈ (f r.state).effs) := by
  unfold Res.seq at hmem
  cases herr : r.err
  · rw [herr] at hmem
    dsimp only at hmem
    rcases List.mem_append.1 hmem with h1 | h1
    · exact Or.inl h1
    · exact Or.inr ⟨rfl, h1⟩
  · rw [herr] at hmem
    exact Or.inl hmem

theorem plugin_no_bad_start (s : CharmState) (h : s.currentWpConfig.isSome = true) :
    Eff.startService false ∉ (_plugin_reconciliation s).effs := by
  intro hmem
  unfold _plugin_reconciliation at hmem
  rcases seq_effs_mem _ _ hmem with hin | ⟨-, hin⟩
  · exact addon_no_start s "plugin" false hin
  · have hcur1 : (_addon_reconciliation s "plugin").state.currentWpConfig.isSome = true := by
      rw [addon_state_current]
      exact h
    by_cases hl : (_addon_reconciliation s "plugin").state.isLeader = true
    · rw [if_pos hl] at hin
      rcases seq_effs_mem _ _ hin with hin2 | ⟨-, hin2⟩
      · exact (akismet_no_start_current _).1 false hin2
      · have hcur2 : (_plugin_akismet_reconciliation
            (_addon_reconciliation s "plugin").state).state.currentWpConfig.isSome = true := by
          rw [(akismet_no_start_current _).2]
          exact hcur1
        rcases seq_effs_mem _ _ hin2 with hin3 | ⟨-, hin3⟩
        · exact (openid_no_start_current _).1 false hin3
        · have hcur3 : (_plugin_openid_reconciliation
              (_plugin_akismet_reconciliation
                (_addon_reconciliation s "plugin").state).state).state.currentWpConfig.isSome
              = true := by
            rw [(openid_no_start_current _).2]
            exact hcur2
          exact (swift_no_bad_start _ hcur3).1 hin3
    · rw [if_neg hl] at hin
      simp at hin

/-- `stBase` as a leader without wp-config.php whose database probes all
fail. -/
def stC10 : CharmState := { stBase with
  currentWpConfig := none
  dbCheck := fun _ => false }

/-- Claim C10, counterexample: on a leader without wp-config.php whose
database is unreachable, `_start_server` raises the blocked-status exception
of the connectivity loop, not a `FileNotFoundError`; so it is false that
`_start_server` on the leader raises a `FileNotFoundError` whenever
wp-config.php does not exist (it does, however, never start the service). -/
theorem c10_counterexample :
    stC10.isLeader = true ∧ stC10.currentWpConfig = none
      ∧ (_start_server stC10).err = some (WPErr.blocked "MySQL error 2003") := by
  refine ⟨rfl, rfl, ?_⟩
  decide

/-- Claim C10, amended: `_remove_wp_config` raises a `RuntimeError` and
leaves wp-config.php untouched whenever the WordPress service is running;
`_start_server` on the leader never issues a service start when
wp-config.php is absent and always raises (the raised exception being the
`FileNotFoundError` of the wp-config.php guard when the database gate and
installation state let execution reach it, and the earlier exception
otherwise); hence the server is never started without wp-config.php present
(on any unit, for every `_reconciliation` invocation), and wp-config.php is
never removed while the server is running. -/
theorem c10_wp_config_safety :
    (∀ s : CharmState, s.serviceExists = true → s.serviceRunning = true →
        _remove_wp_config s
          = ⟨s, [], some (WPErr.fatal
              "trying to delete wp-config.php while WordPress server is running")⟩)
      ∧ (∀ s : CharmState, s.isLeader = true → s.currentWpConfig = none →
          (∀ b, Eff.startService b ∉ (_start_server s).effs)
            ∧ (_start_server s).err.isSome = true)
      ∧ (∀ s : CharmState, s.isLeader = true → s.currentWpConfig = none →
          (∀ i, s.dbCheck i = true) → s.wpInstalled = true →
          (_start_server s).err = some (WPErr.fatal msgWpConfigMissing))
      ∧ (∀ s : CharmState, Eff.startService false ∉ (_reconciliation s).effs)
      ∧ (∀ s : CharmState, Eff.removeWpConfigFile true ∉ (_remove_wp_config s).effs) := by
  refine ⟨?_, ?_, ?_, ?_, ?_⟩
  · intro s h1 h2
    unfold _remove_wp_config
    simp [h1, h2]
  · intro s hl hc
    have hsome : s.currentWpConfig.isSome = false := by rw [hc]; rfl
    constructor
    · intro b hmem
      unfold _start_server startIfStopped _init_pebble_layer at hmem
      simp only [apply_ite Res.effs] at hmem
      split_ifs at hmem <;>
        simp_all [List.mem_append, List.mem_replicate]
    · unfold _start_server startIfStopped _init_pebble_layer
      simp only [apply_ite Res.err]
      split_ifs <;> simp_all
  · intro s hl hc hdb hwp
    have ht : dbTries { s with serviceExists := true } 0 30 = (1, true) :=
      dbTries_first_true _ 0 29 (hdb 0)
    unfold _start_server _init_pebble_layer
    dsimp only
    rw [ht]
    simp [hl, hc, hwp]
  · intro s
    by_cases hcan : s.canConnect = true
    · intro hmem
      unfold _reconciliation at hmem
      rw [hcan] at hmem
      simp only [Bool.not_true, Bool.false_eq_true, if_false] at hmem
      have hmem2 : Eff.startService false ∈ (reconciliationSteps s).effs := by
        cases herr : (reconciliationSteps s).err with
        | none =>
          rw [herr] at hmem
          exact hmem
        | some e =>
          rw [herr] at hmem
          dsimp only at hmem
          cases he : e.isStatusExc <;> rw [he] at hmem <;> simpa using hmem
      unfold reconciliationSteps at hmem2
      rcases seq_effs_mem _ _ hmem2 with hin | ⟨herr1, hin⟩
      · exact (core_no_bad_start s).1 hin
      · have hsome1 := (core_no_bad_start s).2 herr1
        rcases seq_effs_mem _ _ hin with hin2 | ⟨-, hin2⟩
        · exact addon_no_start _ "theme" false hin2
        · have hsome2 : (_theme_reconciliation
              (_core_reconciliation s).state).state.currentWpConfig.isSome = true := by
            unfold _theme_reconciliation
            rw [addon_state_current]
            exact hsome1
          exact plugin_no_bad_start _ hsome2 hin2
    · simp only [Bool.not_eq_true] at hcan
      rw [reconciliation_no_connect s hcan]
      simp
  · intro s hmem
    unfold _remove_wp_config at hmem
    simp only [apply_ite Res.effs] at hmem
    split_ifs at hmem <;> simp_all

/-- Witness for C10 at concrete states: a running server rejects
wp-config.php removal; a leader without wp-config.php (database reachable,
WordPress installed) gets the `FileNotFoundError`. -/
theorem c10_wp_config_safety_witness :
    _remove_wp_config stBase
        = ⟨stBase, [], some (WPErr.fatal
            "trying to delete wp-config.php while WordPress server is running")⟩
      ∧ (_start_server { stBase with currentWpConfig := none }).err
          = some (WPErr.fatal msgWpConfigMissing)
      ∧ Eff.startService false ∉ (_reconciliation stConv).effs := by
  refine ⟨?_, ?_, ?_⟩
  · exact c10_wp_config_safety.1 stBase rfl rfl
  · exact c10_wp_config_safety.2.2.1 { stBase with currentWpConfig := none }
      rfl rfl (fun i => rfl) rfl
  · exact c10_wp_config_safety.2.2.2.1 stConv

/-! ### Claim C2 -/

/-- Equality of two name lists viewed as sets. -/
def sameAddonSet (a b : List String) : Bool :=
  a.all (fun x => b.contains x) && b.all (fun x => a.contains x)

/-- The observed state is converged to the desired state as claim C2 lists
it: pebble reachable, consensus reached, complete DB info available, the
current wp-config.php content equal to the generated one, WordPress
installed, the server service running, and the installed themes/plugins
equal (as sets) to the desired sets. -/
def ConvergedClaim (s : CharmState) : Prop :=
  s.canConnect = true
    ∧ _replica_consensus_reached s = true
    ∧ (dbConfigComplete s = true ∨ dbRelationComplete s = true)
    ∧ s.currentWpConfig = _gen_wp_config s
    ∧ s.wpInstalled = true
    ∧ s.serviceExists = true
    ∧ s.serviceRunning = true
    ∧ sameAddonSet (s.installedThemes.map Prod.fst) (desiredAddons s "theme") = true
    ∧ sameAddonSet (s.installedPlugins.map Prod.fst) (desiredAddons s "plugin") = true

/-- The three charm-managed plugins already have the activation status their
config options ask for. -/
def ManagedPluginsConverged (s : CharmState) : Prop :=
  (∃ st, pluginStatusMapGet s "akismet" = some st
      ∧ (st == "active") = !(pyStrip s.cfgAkismetKey == ""))
    ∧ (∃ st, pluginStatusMapGet s "openid" = some st
      ∧ (st == "active") = !(pyStrip s.cfgOpenidTeamMap == ""))
    ∧ (∃ st, pluginStatusMapGet s "openstack-objectstorage-k8s" = some st
      ∧ (st == "active") = s.cfgSwift.isSome)

/-- Environment conditions for a fully successful pass: the database is
reachable, every issued command succeeds, the openid team map (when set) is
well-formed, and the swift option is unset.  The last condition cannot be
traded for anything weaker: when swift is configured,
`_apache_config_is_enabled` reports the proxy configuration disabled no
matter what (see `strEqFileInfo`), so every invocation runs
`_apache_enable_config` — stopping and restarting the server — and is never
free of mutating operations. -/
def EnvOk (s : CharmState) : Prop :=
  (∀ i, s.dbCheck i = true)
    ∧ (∀ e, s.execOk e = true)
    ∧ (pyStrip s.cfgOpenidTeamMap = ""
        ∨ (_encode_openid_team_map (pyStrip s.cfgOpenidTeamMap)).isSome = true)
    ∧ s.cfgSwift = none

/-- Converged in the amended sense of claim C2. -/
def ConvergedPlus (s : CharmState) : Prop :=
  ConvergedClaim s ∧ ManagedPluginsConverged s ∧ EnvOk s

/-- Non-mutating effects: database probes, plugin activation toggles and
WordPress option updates/deletes.  In particular no addon install or
uninstall command, no wp-config.php push, no service stop or start, no
WordPress install and no apache change. -/
def benignEff : Eff → Bool
  | .dbConnCheck => true
  | .pluginActivate _ => true
  | .pluginDeactivate _ => true
  | .optionUpdate _ _ _ => true
  | .optionDelete _ => true
  | _ => false

theorem set_serviceExists_eq (s : CharmState) (h : s.serviceExists = true) :
    ({ s with serviceExists := true } : CharmState) = s := by
  cases s
  simp_all

theorem secretLinesOf_isSome (d : List (String × String)) :
    ∀ l : List String, l.all (fun f => pyTruthy (d.lookup f)) = true →
      ∃ sl, secretLinesOf d l = some sl := by
  intro l
  induction l with
  | nil => intro _; exact ⟨[], rfl⟩
  | cons f rest ih =>
    intro h
    rw [List.all_cons, Bool.and_eq_true] at h
    obtain ⟨sl, hsl⟩ := ih h.2
    cases hlk : d.lookup f with
    | none => rw [hlk] at h; cases h.1
    | some v =>
      rw [hlk] at h
      have hv : (v == "") = false := by
        have := h.1
        unfold pyTruthy at this
        simpa using this
      exact ⟨defineLine (pyUpper f) v :: sl, by
        unfold secretLinesOf
        rw [hlk]
        simp [hv, hsl]⟩

theorem gen_wp_config_isSome (s : CharmState)
    (h : _replica_consensus_reached s = true) :
    ∃ w, _gen_wp_config s = some w := by
  suffices hs : (_gen_wp_config s).isSome = true by
    exact Option.isSome_iff_exists.1 hs
  unfold _replica_consensus_reached at h
  cases hrep : s.replicaData with
  | none => rw [hrep] at h; cases h
  | some d =>
    rw [hrep] at h
    dsimp only at h
    obtain ⟨sl, hsl⟩ := secretLinesOf_isSome d _wordpress_secret_key_fields h
    unfold _gen_wp_config
    rw [hrep]
    dsimp only
    rw [hsl]
    rfl

theorem sameAddonSet_installs_nil (s : CharmState) (ty : String)
    (h : sameAddonSet ((_wp_addon_list s ty).map Prod.fst) (desiredAddons s ty) = true) :
    installsOf s ty = [] := by
  unfold sameAddonSet at h
  rw [Bool.and_eq_true, List.all_eq_true, List.all_eq_true] at h
  unfold installsOf
  rw [List.filter_eq_nil_iff]
  intro n hn
  have h2 := h.2 n hn
  simp only [List.contains, List.elem_eq_mem, decide_eq_true_eq] at h2
  have h3 : n ∈ currentAddons s ty := by
    unfold currentAddons
    rw [List.mem_dedup]
    exact h2
  simp [h3]

theorem sameAddonSet_uninstalls_nil (s : CharmState) (ty : String)
    (h : sameAddonSet ((_wp_addon_list s ty).map Prod.fst) (desiredAddons s ty) = true) :
    uninstallsOf s ty = [] := by
  unfold sameAddonSet at h
  rw [Bool.and_eq_true, List.all_eq_true, List.all_eq_true] at h
  unfold uninstallsOf
  rw [List.filter_eq_nil_iff]
  intro n hn
  unfold currentAddons at hn
  rw [List.mem_dedup] at hn
  have h2 := h.1 n hn
  simp only [List.contains, List.elem_eq_mem, decide_eq_true_eq] at h2
  simp [h2]

theorem addon_converged (s : CharmState) (ty : String)
    (h1 : installsOf s ty = []) (h2 : uninstallsOf s ty = [])
    (hty : (ty == "theme" || ty == "plugin") = true) :
    _addon_reconciliation s ty = ⟨s, [], none⟩ := by
  unfold _addon_reconciliation
  rw [h1, h2]
  simp [hty, installLoop, uninstallLoop, Res.seq]

theorem deleteOptionsLoop_ok (p : String) (s : CharmState)
    (hexec : ∀ e, s.execOk e = true) :
    ∀ l : List String,
      deleteOptionsLoop p s l = ⟨s, l.map Eff.optionDelete, ⟨true, ""⟩⟩ := by
  intro l
  induction l with
  | nil => rfl
  | cons o rest ih =>
    unfold deleteOptionsLoop
    simp [hexec (Eff.optionDelete o), ih]

theorem updateOptionsLoop_ok (p : String) (s : CharmState)
    (hexec : ∀ e, s.execOk e = true) :
    ∀ l : List (String × String × String),
      updateOptionsLoop p s l
        = ⟨s, l.map (fun t => Eff.optionUpdate t.1 t.2.1 t.2.2), ⟨true, ""⟩⟩ := by
  intro l
  induction l with
  | nil => rfl
  | cons o rest ih =>
    unfold updateOptionsLoop
    simp [hexec (Eff.optionUpdate o.1 o.2.1 o.2.2), ih]

/-- When the plugin already has the requested activation status, the toggle
issues no command and changes nothing. -/
theorem perform_noop (s : CharmState) (p : String) (a : Bool) (st : String)
    (hst : pluginStatusMapGet s p = some st) (hmatch : (st == "active") = a) :
    _perform_plugin_activate_or_deactivate s p a = ⟨s, [], ⟨true, ""⟩⟩ := by
  unfold _perform_plugin_activate_or_deactivate
  rw [hst]
  simp [hmatch]

theorem deactivate_converged (s : CharmState) (p : String) (opts : List String)
    (st : String) (hst : pluginStatusMapGet s p = some st)
    (hinact : (st == "active") = false) (hexec : ∀ e, s.execOk e = true) :
    _deactivate_plugin s p opts = ⟨s, opts.map Eff.optionDelete, ⟨true, ""⟩⟩ := by
  unfold _deactivate_plugin
  rw [perform_noop s p false st hst hinact]
  dsimp only
  rw [deleteOptionsLoop_ok p s hexec opts]
  simp

theorem activate_converged (s : CharmState) (p : String)
    (opts : List (String × String × String)) (st : String)
    (hst : pluginStatusMapGet s p = some st)
    (hact : (st == "active") = true) (hexec : ∀ e, s.execOk e = true) :
    _activate_plugin s p opts
      = ⟨s, opts.map (fun t => Eff.optionUpdate t.1 t.2.1 t.2.2), ⟨true, ""⟩⟩ := by
  unfold _activate_plugin
  rw [perform_noop s p true st hst hact]
  dsimp only
  rw [updateOptionsLoop_ok p s hexec opts]
  simp

theorem akismet_converged (s : CharmState)
    (hm : ∃ st, pluginStatusMapGet s "akismet" = some st
        ∧ (st == "active") = !(pyStrip s.cfgAkismetKey == ""))
    (hexec : ∀ e, s.execOk e = true) :
    (_plugin_akismet_reconciliation s).state = s
      ∧ (_plugin_akismet_reconciliation s).err = none
      ∧ (_plugin_akismet_reconciliation s).effs.all benignEff = true := by
  obtain ⟨st, hst, hmatch⟩ := hm
  unfold _plugin_akismet_reconciliation
  dsimp only
  by_cases hk : (pyStrip s.cfgAkismetKey == "") = true
  · rw [if_pos hk]
    rw [deactivate_converged s "akismet" _ st hst (by rw [hmatch, hk]; rfl) hexec]
    simp [benignEff]
  · have hk2 : (pyStrip s.cfgAkismetKey == "") = false := by
      cases h2 : (pyStrip s.cfgAkismetKey == "") with
      | true => exact absurd h2 hk
      | false => rfl
    rw [if_neg hk]
    rw [activate_converged s "akismet" _ st hst (by rw [hmatch, hk2]; rfl) hexec]
    simp [benignEff]

theorem openid_converged (s : CharmState)
    (hm : ∃ st, pluginStatusMapGet s "openid" = some st
        ∧ (st == "active") = !(pyStrip s.cfgOpenidTeamMap == ""))
    (henc : pyStrip s.cfgOpenidTeamMap = ""
        ∨ (_encode_openid_team_map (pyStrip s.cfgOpenidTeamMap)).isSome = true)
    (hexec : ∀ e, s.execOk e = true) :
    (_plugin_openid_reconciliation s).state = s
      ∧ (_plugin_openid_reconciliation s).err = none
      ∧ (_plugin_openid_reconciliation s).effs.all benignEff = true := by
  obtain ⟨st, hst, hmatch⟩ := hm
  unfold _plugin_openid_reconciliation
  dsimp only
  by_cases hk : (pyStrip s.cfgOpenidTeamMap == "") = true
  · rw [if_pos hk]
    rw [deactivate_converged s "openid" _ st hst (by rw [hmatch, hk]; rfl) hexec]
    simp [benignEff]
  · have hk2 : (pyStrip s.cfgOpenidTeamMap == "") = false := by
      cases h2 : (pyStrip s.cfgOpenidTeamMap == "") with
      | true => exact absurd h2 hk
      | false => rfl
    have hne : ¬(pyStrip s.cfgOpenidTeamMap = "") := by
      intro h2
      rw [h2] at hk
      exact hk rfl
    rcases henc with henc | henc
    · exact absurd henc hne
    · obtain ⟨enc, hencv⟩ := Option.isSome_iff_exists.1 henc
      rw [if_neg hk]
      rw [hencv]
      dsimp only
      rw [activate_converged s "openid" _ st hst (by rw [hmatch, hk2]; rfl) hexec]
      simp [benignEff]

theorem swift_converged (s : CharmState)
    (hm : ∃ st, pluginStatusMapGet s "openstack-objectstorage-k8s" = some st
        ∧ (st == "active") = s.cfgSwift.isSome)
    (hsw : s.cfgSwift = none)
    (hexec : ∀ e, s.execOk e = true) :
    (_plugin_swift_reconciliation s).state = s
      ∧ (_plugin_swift_reconciliation s).err = none
      ∧ (_plugin_swift_reconciliation s).effs.all benignEff = true := by
  obtain ⟨st, hst, hmatch⟩ := hm
  unfold _plugin_swift_reconciliation
  rw [hsw]
  dsimp only
  rw [deactivate_converged s "openstack-objectstorage-k8s" _ st hst
    (by rw [hmatch, hsw]; rfl) hexec]
  simp [benignEff]

theorem Res.seq_id (r : Res) (f : CharmState → Res) (s : CharmState)
    (hst : r.state = s) (herr : r.err = none) :
    r.seq f = ⟨(f s).state, r.effs ++ (f s).effs, (f s).err⟩ := by
  unfold Res.seq
  rw [herr]
  dsimp only
  rw [hst]

theorem replicate_dbConnCheck_benign (k : Nat) :
    (List.replicate k Eff.dbConnCheck).all benignEff = true := by
  rw [List.all_eq_true]
  intro e he
  rw [List.eq_of_mem_replicate he]
  rfl

/-- In a converged state the core reconciliation only probes database
connectivity (on the leader), changes nothing, and raises nothing. -/
theorem core_converged (s : CharmState)
    (hcons : _replica_consensus_reached s = true)
    (hgate : (!dbConfigComplete s && !dbRelationComplete s) = false)
    (hcfg : s.currentWpConfig = _gen_wp_config s)
    (hinst : s.wpInstalled = true)
    (hrun : s.serviceRunning = true)
    (hdb : s.isLeader = true → (dbTries { s with serviceExists := true } 0 30).2 = true) :
    _core_reconciliation s
      = ⟨{ s with serviceExists := true },
         if s.isLeader = true then
           List.replicate (dbTries { s with serviceExists := true } 0 30).1 Eff.dbConnCheck
         else [], none⟩ := by
  obtain ⟨w, hw⟩ := gen_wp_config_isSome s hcons
  have hbeq : (some w == s.currentWpConfig) = true := by
    rw [hcfg, hw]
    exact beq_self_eq_true _
  have hsome : s.currentWpConfig.isSome = true := by
    rw [hcfg, hw]
    rfl
  have hstart : _start_server s
      = ⟨{ s with serviceExists := true },
         if s.isLeader = true then
           List.replicate (dbTries { s with serviceExists := true } 0 30).1 Eff.dbConnCheck
         else [], none⟩ := by
    unfold _start_server _init_pebble_layer startIfStopped
    dsimp only
    by_cases hl : s.isLeader = true
    · rw [if_pos hl, if_pos (hdb hl), if_pos hinst, if_pos hsome, if_pos hrun, if_pos hl]
    · rw [if_neg hl, if_pos hrun, if_neg hl]
  unfold _core_reconciliation
  simp only [hcons, Bool.not_true, Bool.false_eq_true, if_false]
  rw [if_neg (by simp [hgate])]
  rw [hw]
  dsimp only
  rw [if_pos hbeq]
  dsimp only
  rw [if_pos hsome, hstart]
  rfl

/-- In a converged state the plugin reconciliation step issues only
non-mutating commands, changes nothing, and raises nothing. -/
theorem plugin_converged (s : CharmState)
    (hmp : ManagedPluginsConverged s)
    (haddon : sameAddonSet (s.installedPlugins.map Prod.fst)
        (desiredAddons s "plugin") = true)
    (henc : pyStrip s.cfgOpenidTeamMap = ""
        ∨ (_encode_openid_team_map (pyStrip s.cfgOpenidTeamMap)).isSome = true)
    (hswc : s.cfgSwift = none)
    (hexec : ∀ e, s.execOk e = true) :
    (_plugin_reconciliation s).state = s
      ∧ (_plugin_reconciliation s).err = none
      ∧ (_plugin_reconciliation s).effs.all benignEff = true := by
  have haddonres : _addon_reconciliation s "plugin" = ⟨s, [], none⟩ :=
    addon_converged s "plugin" (sameAddonSet_installs_nil s "plugin" haddon)
      (sameAddonSet_uninstalls_nil s "plugin" haddon) rfl
  have hA := akismet_converged s hmp.1 hexec
  have hO := openid_converged s hmp.2.1 henc hexec
  have hS := swift_converged s hmp.2.2 hswc hexec
  unfold _plugin_reconciliation
  rw [haddonres, Res.seq_id _ _ s rfl rfl]
  dsimp only
  by_cases hl : s.isLeader = true
  · rw [if_pos hl, Res.seq_id _ _ s hA.1 hA.2.1, Res.seq_id _ _ s hO.1 hO.2.1]
    refine ⟨hS.1, hS.2.1, ?_⟩
    simp [List.all_append, Bool.and_eq_true, hA.2.2, hO.2.2, hS.2.2]
  · rw [if_neg hl]
    exact ⟨rfl, rfl, by simp⟩

/-- Claim C2, amended theorem: on every state converged in the sense of the
claim and additionally satisfying the environment conditions of
`ConvergedPlus` (database reachable, commands succeeding, managed plugin
activation statuses matching config, well-formed openid team map, swift
unset — with swift configured the always-false
`_apache_config_is_enabled` check makes every invocation stop and restart
the server), one `_reconciliation` invocation issues only non-mutating
effects (no addon install or uninstall command, no wp-config.php push, no
service stop, no WordPress install), ends with `ActiveStatus`, leaves the
observed state unchanged, and therefore repeating the invocation yields the
same result. -/
theorem c2_reconciliation_idempotent (s : CharmState) (h : ConvergedPlus s) :
    (_reconciliation s).effs.all benignEff = true
      ∧ (_reconciliation s).outcome = HookOutcome.status UnitStatus.active
      ∧ (_reconciliation s).state = s
      ∧ _reconciliation ((_reconciliation s).state) = _reconciliation s := by
  obtain ⟨⟨hcan, hcons, hdbinfo, hcfg, hinst, hex, hrun, hth, hpl⟩, hmp, henv⟩ := h
  obtain ⟨hdbc, hexec, henc, hswc⟩ := henv
  have hgate : (!dbConfigComplete s && !dbRelationComplete s) = false := by
    rcases hdbinfo with h1 | h1 <;> simp [h1]
  have hdbt : s.isLeader = true →
      (dbTries { s with serviceExists := true } 0 30).2 = true := by
    intro _
    rw [dbTries_first_true { s with serviceExists := true } 0 29 (hdbc 0)]
  have hcore := core_converged s hcons hgate hcfg hinst hrun hdbt
  rw [set_serviceExists_eq s hex] at hcore
  have hthm : _addon_reconciliation s "theme" = ⟨s, [], none⟩ :=
    addon_converged s "theme" (sameAddonSet_installs_nil s "theme" hth)
      (sameAddonSet_uninstalls_nil s "theme" hth) rfl
  have hplg := plugin_converged s hmp hpl henc hswc hexec
  have hsteps : (reconciliationSteps s).state = s
      ∧ (reconciliationSteps s).err = none
      ∧ (reconciliationSteps s).effs.all benignEff = true := by
    unfold reconciliationSteps
    rw [hcore, Res.seq_id _ _ s rfl rfl]
    dsimp only
    unfold _theme_reconciliation
    rw [hthm, Res.seq_id _ _ s rfl rfl]
    dsimp only
    refine ⟨hplg.1, hplg.2.1, ?_⟩
    have hcb : (if s.isLeader = true then
        List.replicate (dbTries s 0 30).1 Eff.dbConnCheck else []).all benignEff = true := by
      by_cases hl : s.isLeader = true
      · rw [if_pos hl]
        exact replicate_dbConnCheck_benign _
      · rw [if_neg hl]
        rfl
    simp [List.all_append, hcb, hplg.2.2]
  have hrecon : _reconciliation s
      = ⟨s, (reconciliationSteps s).effs, HookOutcome.status UnitStatus.active⟩ := by
    unfold _reconciliation
    rw [if_neg (by simp [hcan])]
    dsimp only
    rw [hsteps.2.1]
    dsimp only
    rw [hsteps.1]
  have hstate : (_reconciliation s).state = s := by rw [hrecon]
  refine ⟨by rw [hrecon]; exact hsteps.2.2, by rw [hrecon], hstate, by rw [hstate]⟩

/-- Witness for the amended claim C2 at the concrete converged state
`stConv`. -/
theorem c2_reconciliation_idempotent_witness :
    (_reconciliation stConv).effs.all benignEff = true
      ∧ (_reconciliation stConv).outcome = HookOutcome.status UnitStatus.active
      ∧ (_reconciliation stConv).state = stConv
      ∧ _reconciliation ((_reconciliation stConv).state) = _reconciliation stConv :=
  c2_reconciliation_idempotent stConv
    ⟨⟨rfl, by decide, Or.inl (by decide),
      (gen_wp_config_set_current stBase (_gen_wp_config stBase)).symm,
      rfl, rfl, rfl, by decide, by decide⟩,
     ⟨⟨"inactive", by decide, by decide⟩,
      ⟨"inactive", by decide, by decide⟩,
      ⟨"inactive", by decide, by decide⟩⟩,
     fun _ => rfl, fun _ => rfl, Or.inl (by decide), rfl⟩

/-- `stConv` with the database unreachable: every condition of the claim's
converged-state hypothesis still holds. -/
def exC2 : CharmState := { stConv with dbCheck := fun _ => false }

/-- `_gen_wp_config` does not depend on the `dbCheck` probe oracle. -/
theorem gen_wp_config_exC2 : _gen_wp_config exC2 = _gen_wp_config stBase := rfl

/-- Claim C2, counterexample to the claim as stated: `exC2` satisfies every
conjunct of the claim's converged-state hypothesis (installed addons equal
the desired sets, current wp-config.php equals the generated one, WordPress
installed, service running, consensus reached, complete DB config), yet
`_reconciliation` ends with `BlockedStatus("MySQL error 2003")`, not
`ActiveStatus`, because the database-connectivity probe (which the claim's
hypothesis says nothing about) fails. -/
theorem c2_counterexample :
    ConvergedClaim exC2
      ∧ (_reconciliation exC2).outcome
          = HookOutcome.status (UnitStatus.blocked "MySQL error 2003") := by
  have hcfg : exC2.currentWpConfig = _gen_wp_config exC2 := gen_wp_config_exC2.symm
  obtain ⟨w, hw⟩ := gen_wp_config_isSome exC2 (by decide)
  have hbeq : (some w == exC2.currentWpConfig) = true := by
    rw [hcfg, hw]
    exact beq_self_eq_true _
  have hsome : exC2.currentWpConfig.isSome = true := by
    rw [hcfg, hw]
    rfl
  have ht : dbTries { exC2 with serviceExists := true } 0 30 = (30, false) := by decide
  have hstart : _start_server exC2
      = ⟨{ exC2 with serviceExists := true },
         List.replicate 30 Eff.dbConnCheck,
         some (WPErr.blocked "MySQL error 2003")⟩ := by
    unfold _start_server _init_pebble_layer
    dsimp only
    rw [ht]
    rfl
  have hcore : _core_reconciliation exC2
      = ⟨{ exC2 with serviceExists := true },
         List.replicate 30 Eff.dbConnCheck,
         some (WPErr.blocked "MySQL error 2003")⟩ := by
    unfold _core_reconciliation
    simp only [show _replica_consensus_reached exC2 = true by decide, Bool.not_true,
      Bool.false_eq_true, if_false]
    rw [if_neg (by simp [show dbConfigComplete exC2 = true by decide])]
    rw [hw]
    dsimp only
    rw [if_pos hbeq]
    dsimp only
    rw [if_pos hsome, hstart]
    rfl
  have hsteps : reconciliationSteps exC2
      = ⟨{ exC2 with serviceExists := true },
         List.replicate 30 Eff.dbConnCheck,
         some (WPErr.blocked "MySQL error 2003")⟩ := by
    unfold reconciliationSteps
    rw [hcore]
    rfl
  refine ⟨⟨rfl, by decide, Or.inl (by decide), hcfg, rfl, rfl, rfl,
    by decide, by decide⟩, ?_⟩
  unfold _reconciliation
  rw [if_neg (by decide)]
  dsimp only
  rw [hsteps]
  rfl

/-! ### Claim C3 -/

/-- The connectivity retry loop makes at most `fuel` probes. -/
theorem dbTries_le (s : CharmState) : ∀ (fuel i : Nat), (dbTries s i fuel).1 ≤ fuel := by
  intro fuel
  induction fuel with
  | zero => intro i; exact Nat.le_refl 0
  | succ n ih =>
    intro i
    unfold dbTries
    by_cases h : s.dbCheck i = true
    · simp only [h, if_true]
      exact Nat.succ_le_succ (Nat.zero_le n)
    · simp only [h, if_false]
      exact Nat.succ_le_succ (ih (i + 1))

theorem count_replicate_dbConnCheck (k : Nat) :
    (List.replicate k Eff.dbConnCheck).count Eff.dbConnCheck = k := by
  induction k with
  | zero => rfl
  | succ n ih => simp [List.replicate_succ, List.count_cons, ih]

/-- One `_start_server` call issues at most 30 database probes. -/
theorem start_server_db_count (s : CharmState) :
    (_start_server s).effs.count Eff.dbConnCheck ≤ 30 := by
  have ht := dbTries_le { s with serviceExists := true } 30 0
  unfold _start_server _init_pebble_layer startIfStopped
  dsimp only
  simp only [apply_ite Res.effs]
  split_ifs <;>
    simp_all [List.count_append, List.count_cons, List.count_nil,
      count_replicate_dbConnCheck]

/-- When pebble is reachable, the effects of `_reconciliation` are exactly
those of the three reconciliation steps, whatever the error outcome. -/
theorem reconciliation_effs (s : CharmState) (h : s.canConnect = true) :
    (_reconciliation s).effs = (reconciliationSteps s).effs := by
  unfold _reconciliation
  rw [if_neg (by simp [h])]
  dsimp only
  cases herr : (reconciliationSteps s).err with
  | none => rfl
  | some e =>
    dsimp only
    simp only [apply_ite RunResult.effs]
    split_ifs <;> rfl

/-- `stConv` with the database probe failing on the first attempt and
succeeding on the second. -/
def stC3 : CharmState := { stConv with dbCheck := fun i => decide (1 ≤ i) }

/-- `_gen_wp_config` does not depend on the `dbCheck` probe oracle. -/
theorem gen_wp_config_stC3 : _gen_wp_config stC3 = _gen_wp_config stBase := rfl

/-- Claim C3, counterexample to the claim as stated: in the state `stC3`
(pebble reachable, consensus, complete DB config, wp-config.php current,
WordPress installed and running), one invocation of `_reconciliation`
issues the database-connectivity probe twice — the probe is an internal
step retried up to 30 times, so it is false that each internal step is
attempted at most once per invocation. -/
theorem c3_counterexample :
    2 ≤ (_reconciliation stC3).effs.count Eff.dbConnCheck := by
  have hcfg : stC3.currentWpConfig = _gen_wp_config stC3 := gen_wp_config_stC3.symm
  obtain ⟨w, hw⟩ := gen_wp_config_isSome stC3 (by decide)
  have hbeq : (some w == stC3.currentWpConfig) = true := by
    rw [hcfg, hw]
    exact beq_self_eq_true _
  have hsome : stC3.currentWpConfig.isSome = true := by
    rw [hcfg, hw]
    rfl
  have ht : dbTries { stC3 with serviceExists := true } 0 30 = (2, true) := by decide
  have hstart : _start_server stC3
      = ⟨{ stC3 with serviceExists := true },
         List.replicate 2 Eff.dbConnCheck, none⟩ := by
    unfold _start_server _init_pebble_layer startIfStopped
    dsimp only
    rw [ht]
    rw [if_pos (show stC3.isLeader = true from rfl),
       if_pos (show ((2 : Nat), true).2 = true from rfl),
       if_pos (show stC3.wpInstalled = true from rfl),
       if_pos hsome,
       if_pos (show stC3.serviceRunning = true from rfl)]
  have hcore : _core_reconciliation stC3
      = ⟨{ stC3 with serviceExists := true },
         List.replicate 2 Eff.dbConnCheck, none⟩ := by
    unfold _core_reconciliation
    simp only [show _replica_consensus_reached stC3 = true by decide, Bool.not_true,
      Bool.false_eq_true, if_false]
    rw [if_neg (by simp [show dbConfigComplete stC3 = true by decide])]
    rw [hw]
    dsimp only
    rw [if_pos hbeq]
    dsimp only
    rw [if_pos hsome, hstart]
    rfl
  have hsteps : (reconciliationSteps stC3).effs
      = List.replicate 2 Eff.dbConnCheck
          ++ ((_theme_reconciliation { stC3 with serviceExists := true }).seq
              (fun s2 => _plugin_reconciliation s2)).effs := by
    unfold reconciliationSteps
    rw [hcore, Res.seq_id _ _ { stC3 with serviceExists := true } rfl rfl]
  rw [reconciliation_effs stC3 rfl, hsteps, List.count_append,
    count_replicate_dbConnCheck]
  exact Nat.le_add_right 2 _

/-- Claim C3, amended: the reconciliation machinery does contain one retry
loop — `_start_server` probes database connectivity up to 30 times per call
(never more) — while failure handling is exactly "raise and set status": when
pebble is reachable, either the three steps raise nothing and the unit
becomes active, or the first raised exception is a status exception and its
status is assigned to the unit, or it is a non-status exception (e.g.
`FileNotFoundError`) and the hook crashes instead of setting a status; no
other path exists. -/
theorem c3_retry_and_error_surface (s : CharmState) (hcan : s.canConnect = true) :
    (∀ fuel i, (dbTries s i fuel).1 ≤ fuel)
      ∧ (_start_server s).effs.count Eff.dbConnCheck ≤ 30
      ∧ ((reconciliationSteps s).err = none
            ∧ _reconciliation s = ⟨(reconciliationSteps s).state,
                (reconciliationSteps s).effs, HookOutcome.status UnitStatus.active⟩
        ∨ (∃ e, (reconciliationSteps s).err = some e ∧ e.isStatusExc = true
            ∧ _reconciliation s = ⟨(reconciliationSteps s).state,
                (reconciliationSteps s).effs, HookOutcome.status e.toStatus⟩)
        ∨ (∃ e, (reconciliationSteps s).err = some e ∧ e.isStatusExc = false
            ∧ _reconciliation s = ⟨(reconciliationSteps s).state,
                (reconciliationSteps s).effs,
                HookOutcome.crashed "uncaught exception"⟩)) := by
  refine ⟨dbTries_le s, start_server_db_count s, ?_⟩
  have hif : _reconciliation s
      = match (reconciliationSteps s).err with
        | none => ⟨(reconciliationSteps s).state, (reconciliationSteps s).effs,
            HookOutcome.status UnitStatus.active⟩
        | some e =>
          if e.isStatusExc = true then
            ⟨(reconciliationSteps s).state, (reconciliationSteps s).effs,
              HookOutcome.status e.toStatus⟩
          else
            ⟨(reconciliationSteps s).state, (reconciliationSteps s).effs,
              HookOutcome.crashed "uncaught exception"⟩ := by
    unfold _reconciliation
    rw [if_neg (by simp [hcan])]
  cases herr : (reconciliationSteps s).err with
  | none =>
    rw [herr] at hif
    exact Or.inl ⟨rfl, hif⟩
  | some e =>
    rw [herr] at hif
    dsimp only at hif
    by_cases he : e.isStatusExc = true
    · rw [if_pos he] at hif
      exact Or.inr (Or.inl ⟨e, rfl, he, hif⟩)
    · rw [if_neg he] at hif
      exact Or.inr (Or.inr ⟨e, rfl, Bool.not_eq_true _ ▸ (eq_false_of_ne_true he), hif⟩)

/-- Witness for the amended claim C3 at the concrete state `stConv`. -/
theorem c3_retry_and_error_surface_witness :
    stConv.canConnect = true
      ∧ ((∀ fuel i, (dbTries stConv i fuel).1 ≤ fuel)
        ∧ (_start_server stConv).effs.count Eff.dbConnCheck ≤ 30
        ∧ ((reconciliationSteps stConv).err = none
              ∧ _reconciliation stConv = ⟨(reconciliationSteps stConv).state,
                  (reconciliationSteps stConv).effs, HookOutcome.status UnitStatus.active⟩
          ∨ (∃ e, (reconciliationSteps stConv).err = some e ∧ e.isStatusExc = true
              ∧ _reconciliation stConv = ⟨(reconciliationSteps stConv).state,
                  (reconciliationSteps stConv).effs, HookOutcome.status e.toStatus⟩)
          ∨ (∃ e, (reconciliationSteps stConv).err = some e ∧ e.isStatusExc = false
              ∧ _reconciliation stConv = ⟨(reconciliationSteps stConv).state,
                  (reconciliationSteps stConv).effs,
                  HookOutcome.crashed "uncaught exception"⟩))) :=
  ⟨rfl, c3_retry_and_error_surface stConv rfl⟩

end WordpressCharm
